import Mathlib

/-!
Verification of the SAFECURE treatment-analysis core.

This file gives a shallow embedding of the pure analysis core of the
SAFECURE repository: the guideline engine (`old_guidelines_engine.py`
together with the data tables of `oncology_guidelines.py`) and the
rule-based and combined analyzers of `app.py`.  Python dictionaries are
modelled as association lists over an inductive value type `PyVal`;
Python strings are Lean strings with hand-rolled, structurally recursive
models of the `str` builtins used by the code (`lower`, `strip`,
`split`, `title`, `replace`, substring test), so that every definition
evaluates by kernel reduction.
-/

namespace Safecure

/-! ## Models of the Python string builtins -/

/-- Lower-case an ASCII character, as Python `str.lower` does on the
character data appearing in this program. -/
def lowerChar (c : Char) : Char :=
  if 65 ≤ c.toNat ∧ c.toNat ≤ 90 then Char.ofNat (c.toNat + 32) else c

/-- Model of Python `str.lower()`. -/
def pyLower (s : String) : String := ⟨s.data.map lowerChar⟩

/-- Model of Python `str.strip()`: drop leading and trailing whitespace. -/
def pyStrip (s : String) : String :=
  ⟨((s.data.dropWhile Char.isWhitespace).reverse.dropWhile Char.isWhitespace).reverse⟩

/-- Whether `needle` is a prefix of `hay` (character lists). -/
def isPrefOf : List Char → List Char → Bool
  | [], _ => true
  | _ :: _, [] => false
  | a :: as, b :: bs => a == b && isPrefOf as bs

/-- Whether `needle` occurs contiguously inside `hay` (character lists). -/
def isSubList (needle : List Char) : List Char → Bool
  | [] => needle.isEmpty
  | c :: t => isPrefOf needle (c :: t) || isSubList needle t

/-- Model of the Python substring test `needle in hay`. -/
def pyIn (needle hay : String) : Bool := isSubList needle.data hay.data

/-- Helper for `pySplit`: accumulate the current word (reversed) while
scanning the character list. -/
def wordsAux : List Char → List Char → List (List Char)
  | [], cur => if cur.isEmpty then [] else [cur.reverse]
  | c :: cs, cur =>
    if c.isWhitespace then
      if cur.isEmpty then wordsAux cs [] else cur.reverse :: wordsAux cs []
    else wordsAux cs (c :: cur)

/-- Model of Python `str.split()` with no argument: split on whitespace
runs, dropping empty tokens. -/
def pySplit (s : String) : List String := (wordsAux s.data []).map fun l => ⟨l⟩

/-- Upper-case an ASCII character. -/
def upperChar (c : Char) : Char :=
  if 97 ≤ c.toNat ∧ c.toNat ≤ 122 then Char.ofNat (c.toNat - 32) else c

/-- Helper for `pyTitle`: the Boolean records whether the previous
character was alphabetic. -/
def titleAux : Bool → List Char → List Char
  | _, [] => []
  | prevAlpha, c :: cs =>
    (if c.isAlpha then (if prevAlpha then lowerChar c else upperChar c) else c)
      :: titleAux c.isAlpha cs

/-- Model of Python `str.title()`. -/
def pyTitle (s : String) : String := ⟨titleAux false s.data⟩

/-- Model of Python `str.isalpha()`: non-empty and all characters
alphabetic. -/
def pyIsAlpha (w : String) : Bool := !w.data.isEmpty && w.data.all Char.isAlpha

/-- Number of distinct characters of a word, i.e. Python
`len(set(word))`. -/
def uniqueCharsCount (w : String) : Nat := (w.data.dedup).length

/-- Fuel-driven helper for `pyReplace`; the fuel is the length of the
remaining text, so the recursion is structural. -/
def replaceAux (pat rep : List Char) : Nat → List Char → List Char
  | _, [] => []
  | 0, l => l
  | fuel + 1, c :: cs =>
    if !pat.isEmpty && isPrefOf pat (c :: cs) then
      rep ++ replaceAux pat rep fuel ((c :: cs).drop pat.length)
    else c :: replaceAux pat rep fuel cs

/-- Model of Python `str.replace(pat, rep)` for the non-empty patterns
used by this program. -/
def pyReplace (s pat rep : String) : String :=
  ⟨replaceAux pat.data rep.data s.data.length s.data⟩

/-- Join a list of strings with a separator, as Python
`sep.join(...)` / comma-separated reprs. -/
def joinSep (sep : String) : List String → String
  | [] => ""
  | [x] => x
  | x :: y :: xs => x ++ sep ++ joinSep sep (y :: xs)

/-! ## Model of Python values and dictionaries -/

/-- A Python value as used by the analysis core: strings, booleans,
`None`, lists, and string-keyed dictionaries (kept as insertion-ordered
association lists, faithfully to CPython dict semantics). -/
inductive PyVal where
  | str : String → PyVal
  | bool : Bool → PyVal
  | none : PyVal
  | list : List PyVal → PyVal
  | dict : List (String × PyVal) → PyVal

/-- First-match lookup in an association list; Python dicts have unique
keys, so this is exactly `dict[k]` / `dict.get(k)`. -/
def lookupKV (kvs : List (String × PyVal)) (k : String) : Option PyVal :=
  match kvs with
  | [] => Option.none
  | kv :: rest => if kv.1 == k then some kv.2 else lookupKV rest k

/-- Model of Python `d.get(k, default)`. -/
def pyGetD (v : PyVal) (k : String) (dflt : PyVal) : PyVal :=
  match v with
  | .dict kvs => (lookupKV kvs k).getD dflt
  | _ => dflt

/-- Model of Python `d.get(k)` (default `None`). -/
def pyGet (v : PyVal) (k : String) : PyVal := pyGetD v k PyVal.none

/-- Key lookup that keeps track of key presence. -/
def pyLookup (v : PyVal) (k : String) : Option PyVal :=
  match v with
  | .dict kvs => lookupKV kvs k
  | _ => Option.none

/-- Model of Python dict assignment `d[k] = v`: replace the first
binding of `k` in place, or append a new binding. -/
def pySet (kvs : List (String × PyVal)) (k : String) (v : PyVal) :
    List (String × PyVal) :=
  match kvs with
  | [] => [(k, v)]
  | kv :: rest => if kv.1 == k then (k, v) :: rest else kv :: pySet rest k v

/-- Model of Python truthiness for the values this program tests with
`if not x`. -/
def pyTruthy : PyVal → Bool
  | .str s => !s.isEmpty
  | .bool b => b
  | .none => false
  | .list l => !l.isEmpty
  | .dict kvs => !kvs.isEmpty

/-- Extract the underlying string of a value known at runtime to be a
string (every use site in this development is on string values). -/
def pyStrOf : PyVal → String
  | .str s => s
  | _ => ""

/-- Extract a list of strings from a value known at runtime to be a list
of strings. -/
def pyStrListOf : PyVal → List String
  | .list l => l.filterMap fun v => match v with | .str s => some s | _ => Option.none
  | _ => []

/-- Underlying association list of a dict value. -/
def pyDictOf : PyVal → List (String × PyVal)
  | .dict kvs => kvs
  | _ => []

/-- A single-quote character, written by code point to keep the source
free of quote literals. -/
def sq : String := String.singleton (Char.ofNat 39)

mutual
/-- Model of Python `repr` restricted to the value shapes occurring in
the guideline tables (used through `str()` on dict values). -/
def pyRepr : PyVal → String
  | .str s => sq ++ s ++ sq
  | .bool b => if b then "True" else "False"
  | .none => "None"
  | .list l => "[" ++ joinSep ", " (pyReprList l) ++ "]"
  | .dict kvs => "\x7b" ++ joinSep ", " (pyReprKVs kvs) ++ "\x7d"

/-- Reprs of the elements of a list value. -/
def pyReprList : List PyVal → List String
  | [] => []
  | v :: vs => pyRepr v :: pyReprList vs

/-- Reprs of the bindings of a dict value. -/
def pyReprKVs : List (String × PyVal) → List String
  | [] => []
  | kv :: kvs => (sq ++ kv.1 ++ sq ++ ": " ++ pyRepr kv.2) :: pyReprKVs kvs
end

/-- Model of Python `str(v)`. -/
def pyStr : PyVal → String
  | .str s => s
  | v => pyRepr v

/-- Model of CPython `list(set(l))` on string lists: duplicates removed
(membership-preserving; CPython yields an unspecified order). -/
def pyListSet : List String → List String
  | [] => []
  | x :: xs => if x ∈ xs then pyListSet xs else x :: pyListSet xs

/-! ## Guideline engine: keyword tables (`old_guidelines_engine.py`) -/

/-- `GuidelineEngine.CANCER_KEYWORDS`. -/
def CANCER_KEYWORDS : List String :=
  ["cancer", "tumor", "tumour", "carcinoma", "sarcoma", "melanoma", "leukemia",
   "lymphoma", "myeloma", "metastatic", "malignant", "neoplasm", "oncology",
   "breast", "lung", "colon", "rectal", "colorectal", "prostate", "pancreatic",
   "liver", "kidney", "bladder", "ovarian", "cervical", "uterine", "testicular",
   "thyroid", "brain", "glioma", "meningioma", "nsclc", "sclc", "adenocarcinoma",
   "squamous cell", "basal cell", "dcis", "invasive", "her2", "triple negative",
   "stage", "grade", "biopsy", "metastasis"]

/-- `GuidelineEngine.TREATMENT_KEYWORDS`. -/
def TREATMENT_KEYWORDS : List String :=
  ["chemotherapy", "chemo", "radiation", "radiotherapy", "surgery", "surgical",
   "resection", "mastectomy", "lumpectomy", "lobectomy", "colectomy", "prostatectomy",
   "immunotherapy", "targeted therapy", "hormonal therapy", "hormone therapy",
   "adjuvant", "neoadjuvant", "palliative", "pembrolizumab", "nivolumab",
   "trastuzumab", "bevacizumab", "osimertinib",
   "cryotherapy", "cryo therapy", "freezing therapy",
   "active surveillance", "watchful waiting", "observation",
   "photodynamic therapy", "pdt", "light therapy",
   "stem cell transplant", "bone marrow transplant", "hematopoietic transplant",
   "radiofrequency ablation", "rfa", "ablation therapy"]

/-- The three keyboard rows of `GuidelineEngine._has_keyboard_mashing`. -/
def keyboard_rows : List String := ["qwertyuiop", "asdfghjkl", "zxcvbnm"]

/-- `GuidelineEngine._has_keyboard_mashing`: the word contains a
4-character window of a keyboard row, forward or reversed. -/
def has_keyboard_mashing (word : String) : Bool :=
  let word_lower := pyLower word
  keyboard_rows.any fun row =>
    (List.range (row.length - 3)).any fun i =>
      let sequence := (row.data.drop i).take 4
      isSubList sequence word_lower.data || isSubList sequence.reverse word_lower.data

/-- The meaningful words of `GuidelineEngine.is_valid_cancer_input`:
tokens of the lowered, stripped input that are longer than 2 characters
and alphabetic. -/
def meaningfulWords (symptoms : String) : List String :=
  (pySplit (pyStrip (pyLower symptoms))).filter fun w => w.length > 2 && pyIsAlpha w

/-- The gibberish counter of checks 3 of `is_valid_cancer_input` and 2 of
`is_valid_treatment`: a word longer than 4 characters adds 1 when its
character diversity is below 0.4 (`5 * unique < 2 * length`, the exact
rational form of `unique/length < 0.4`) and additionally 1 when it shows
keyboard mashing. -/
def gibberishCount (ws : List String) : Nat :=
  ws.foldl
    (fun gibberish_count word =>
      if word.length > 4 then
        let gibberish_count :=
          if 5 * uniqueCharsCount word < 2 * word.length then gibberish_count + 1
          else gibberish_count
        if has_keyboard_mashing word then gibberish_count + 1 else gibberish_count
      else gibberish_count)
    0

/-- `GuidelineEngine.is_valid_cancer_input`. -/
def is_valid_cancer_input (symptoms : String) : Bool :=
  let symptoms_lower := pyStrip (pyLower symptoms)
  if symptoms_lower.length < 5 then false
  else
    let meaningful_words := meaningfulWords symptoms
    if meaningful_words.length < 2 then false
    else
      let gibberish_count := gibberishCount meaningful_words
      if meaningful_words.length > 0 ∧ 2 * gibberish_count > meaningful_words.length then
        false
      else
        let has_cancer_keyword := CANCER_KEYWORDS.any fun keyword => pyIn keyword symptoms_lower
        if !has_cancer_keyword then false
        else
          let medical_word_count :=
            (CANCER_KEYWORDS.filter fun keyword => pyIn keyword symptoms_lower).length
          if medical_word_count = 0 then false else true

/-- `GuidelineEngine.is_valid_treatment`. -/
def is_valid_treatment (treatment : String) : Bool :=
  let treatment_lower := pyStrip (pyLower treatment)
  if treatment_lower.length < 4 then false
  else
    let words := pySplit treatment_lower
    if words.length == 0 then false
    else
      let gibberish_count := gibberishCount words
      if words.length > 0 ∧ 2 * gibberish_count > words.length then false
      else TREATMENT_KEYWORDS.any fun keyword => pyIn keyword treatment_lower

/-- The `cancer_mapping` of `GuidelineEngine.normalize_cancer_type`,
in source order. -/
def cancer_mapping : List (String × String) :=
  [("breast", "breast_cancer"),
   ("lung", "lung_cancer"),
   ("nsclc", "lung_cancer"),
   ("sclc", "lung_cancer"),
   ("colon", "colorectal_cancer"),
   ("rectal", "colorectal_cancer"),
   ("colorectal", "colorectal_cancer"),
   ("prostate", "prostate_cancer")]

/-- `GuidelineEngine.normalize_cancer_type`: first mapping entry whose
keyword occurs in the lowered symptoms. -/
def normalize_cancer_type (symptoms : String) : Option String :=
  let symptoms_lower := pyLower symptoms
  (cancer_mapping.find? fun kv => pyIn kv.1 symptoms_lower).map fun kv => kv.2

/-- `GuidelineEngine.normalize_stage`. -/
def normalize_stage (symptoms : String) : Option String :=
  let symptoms_lower := pyLower symptoms
  if pyIn "stage iv" symptoms_lower || pyIn "stage 4" symptoms_lower
      || pyIn "metastatic" symptoms_lower then some "stage_iv"
  else if pyIn "stage iii" symptoms_lower || pyIn "stage 3" symptoms_lower then
    some "stage_iii"
  else if pyIn "stage ii" symptoms_lower || pyIn "stage 2" symptoms_lower then
    some "stage_ii"
  else if pyIn "stage i" symptoms_lower || pyIn "stage 1" symptoms_lower then
    some "stage_i"
  else if pyIn "stage 0" symptoms_lower || pyIn "in situ" symptoms_lower
      || pyIn "dcis" symptoms_lower then some "stage_0"
  else if pyIn "low risk" symptoms_lower then some "low_risk"
  else if pyIn "intermediate" symptoms_lower then some "intermediate_risk"
  else if pyIn "high risk" symptoms_lower then some "high_risk"
  else Option.none

/-- The `stage_mappings` of `GuidelineEngine.format_stage_display`. -/
def stage_mappings : List (String × String) :=
  [("stage_0", "Stage 0"), ("stage_i", "Stage I"), ("stage_ii", "Stage II"),
   ("stage_iii", "Stage III"), ("stage_iv", "Stage IV"), ("low_risk", "Low Risk"),
   ("intermediate_risk", "Intermediate Risk"), ("high_risk", "High Risk"),
   ("metastatic", "Metastatic")]

/-- `GuidelineEngine.format_stage_display`. -/
def format_stage_display (stage : String) : String :=
  match stage_mappings.find? fun kv => kv.1 == stage with
  | some kv => kv.2
  | Option.none => pyTitle (pyReplace stage "_" " ")

/-! ## Guideline data (`oncology_guidelines.py`) -/

/-- `CANCER_STAGES`. -/
def CANCER_STAGES : List (String × String) :=
  [("stage_0", "Carcinoma in situ"),
   ("stage_i", "Small, localized tumor"),
   ("stage_ii", "Larger tumor or limited lymph node spread"),
   ("stage_iii", "Regional lymph node involvement"),
   ("stage_iv", "Metastatic disease")]

/-- `ONCOLOGY_GUIDELINES`, the comprehensive guideline database. -/
def ONCOLOGY_GUIDELINES : PyVal := .dict
  [("breast_cancer", .dict
    [("cancer_type", .str "Breast Cancer"),
     ("guideline_source", .str "NCCN Guidelines v5.2025"),
     ("guideline_url", .str "https://www.nccn.org/guidelines/category_1"),
     ("biomarker_tests", .list [.str "ER/PR", .str "HER2", .str "Ki-67", .str "Oncotype DX"]),
     ("stage_0", .dict
       [("standard_treatment", .str "Surgery (lumpectomy) + Radiation"),
        ("alternatives", .list [.str "Mastectomy", .str "Hormonal therapy (if ER+)"]),
        ("survival_rate", .str "98-99% 5-year"),
        ("recovery", .str "4-6 weeks"),
        ("evidence_level", .str "Category 1"),
        ("cost_inr", .str "₹2,00,000-₹4,00,000"),
        ("contraindications", .list [.str "Pregnancy (for radiation)"])]),
     ("stage_i", .dict
       [("standard_treatment", .str "Surgery + Radiation"),
        ("adjuvant_therapy", .dict
          [("HR+/HER2-", .str "Hormonal therapy 5-10 years"),
           ("HER2+", .str "Trastuzumab + Chemotherapy"),
           ("Triple_negative", .str "Chemotherapy")]),
        ("survival_rate", .str "95-100% 5-year"),
        ("recovery", .str "6-12 months"),
        ("evidence_level", .str "Category 1"),
        ("cost_inr", .str "₹5,00,000-₹10,00,000"),
        ("biomarker_requirement", .str "ER/PR/HER2 testing mandatory")]),
     ("stage_ii", .dict
       [("standard_treatment", .str "Neoadjuvant chemotherapy → Surgery → Adjuvant therapy"),
        ("chemotherapy_regimens", .list [.str "AC-T", .str "TC", .str "TCH (if HER2+)"]),
        ("survival_rate", .str "85-93% 5-year"),
        ("recovery", .str "9-18 months"),
        ("evidence_level", .str "Category 1"),
        ("cost_inr", .str "₹8,00,000-₹15,00,000")]),
     ("stage_iii", .dict
       [("standard_treatment", .str "Neoadjuvant chemotherapy → Surgery → Radiation + Adjuvant therapy"),
        ("clinical_trial_recommendation", .str "Consider enrollment"),
        ("survival_rate", .str "72-84% 5-year"),
        ("recovery", .str "12-24 months"),
        ("cost_inr", .str "₹10,00,000-₹18,00,000")]),
     ("stage_iv", .dict
       [("treatment_goal", .str "Palliation and life extension"),
        ("first_line_by_subtype", .dict
          [("HR+/HER2-", .str "CDK4/6 inhibitor + Hormonal therapy"),
           ("HER2+", .str "Trastuzumab + Pertuzumab + Chemotherapy"),
           ("Triple_negative", .str "Chemotherapy ± Immunotherapy (if PD-L1+)")]),
        ("median_survival", .str "2-5 years"),
        ("cost_inr", .str "₹15,00,000-₹30,00,000/year"),
        ("palliative_care", .str "Strongly recommended alongside treatment")])]),
   ("lung_cancer", .dict
    [("cancer_type", .str "Non-Small Cell Lung Cancer (NSCLC)"),
     ("guideline_source", .str "NCCN NSCLC v2.2026"),
     ("guideline_url", .str "https://www.nccn.org/guidelines/category_1"),
     ("biomarker_tests", .list [.str "EGFR", .str "ALK", .str "ROS1", .str "BRAF", .str "PD-L1", .str "KRAS G12C"]),
     ("stage_i", .dict
       [("standard_treatment", .str "Surgical resection (lobectomy)"),
        ("adjuvant_therapy", .str "Osimertinib (if EGFR+), Chemotherapy (if ≥4cm)"),
        ("non_surgical_option", .str "SBRT (stereotactic radiotherapy)"),
        ("survival_rate", .str "73-92% 5-year"),
        ("recovery", .str "6-12 weeks"),
        ("evidence_level", .str "Category 1"),
        ("cost_inr", .str "₹4,00,000-₹8,00,000")]),
     ("stage_ii", .dict
       [("standard_treatment", .str "Surgery + Adjuvant chemotherapy"),
        ("biomarker_directed", .str "Osimertinib (if EGFR+)"),
        ("survival_rate", .str "60-75% 5-year"),
        ("recovery", .str "9-18 months"),
        ("cost_inr", .str "₹6,00,000-₹12,00,000")]),
     ("stage_iii", .dict
       [("resectable", .str "Surgery + Adjuvant therapy"),
        ("unresectable", .str "Concurrent chemoradiation → Durvalumab (if PD-L1+)"),
        ("survival_rate", .str "26-36% 5-year"),
        ("recovery", .str "12-24 months"),
        ("cost_inr", .str "₹8,00,000-₹15,00,000")]),
     ("stage_iv", .dict
       [("treatment_approach", .str "Based on driver mutations"),
        ("driver_positive", .dict
          [("EGFR", .str "Osimertinib (first-line)"),
           ("ALK", .str "Alectinib or Brigatinib"),
           ("KRAS_G12C", .str "Sotorasib or Adagrasib"),
           ("BRAF_V600E", .str "Dabrafenib + Trametinib")]),
        ("driver_negative", .str "Immunotherapy ± Chemotherapy (based on PD-L1)"),
        ("median_survival", .str "12-24 months"),
        ("cost_inr", .str "₹10,00,000-₹25,00,000/year"),
        ("biomarker_requirement", .str "Comprehensive molecular testing mandatory")])]),
   ("colorectal_cancer", .dict
    [("cancer_type", .str "Colorectal Cancer"),
     ("guideline_source", .str "NCCN Colon v5.2025"),
     ("guideline_url", .str "https://www.nccn.org/guidelines/category_1"),
     ("biomarker_tests", .list [.str "MSI/MMR", .str "KRAS/NRAS", .str "BRAF", .str "HER2"]),
     ("stage_i", .dict
       [("standard_treatment", .str "Surgical resection only"),
        ("adjuvant_therapy", .str "Not recommended"),
        ("survival_rate", .str "90-95% 5-year"),
        ("recovery", .str "6-8 weeks"),
        ("cost_inr", .str "₹3,50,000-₹6,00,000")]),
     ("stage_ii", .dict
       [("standard_treatment", .str "Surgery"),
        ("adjuvant_therapy", .str "Consider if high-risk features"),
        ("msi_high_note", .str "Adjuvant chemo NOT recommended for MSI-H"),
        ("survival_rate", .str "80-87% 5-year"),
        ("cost_inr", .str "₹4,00,000-₹8,00,000")]),
     ("stage_iii", .dict
       [("standard_treatment", .str "Surgery + Adjuvant FOLFOX/CAPOX (6 months)"),
        ("survival_rate", .str "64-84% 5-year"),
        ("recovery", .str "9-18 months"),
        ("evidence_level", .str "Category 1"),
        ("cost_inr", .str "₹6,00,000-₹12,00,000")]),
     ("stage_iv", .dict
       [("potentially_resectable", .str "Chemotherapy → Surgery"),
        ("unresectable", .dict
          [("MSI_high", .str "Pembrolizumab (immunotherapy)"),
           ("MSI_stable", .str "FOLFOX/FOLFIRI + Bevacizumab ± anti-EGFR")]),
        ("median_survival", .str "24-30 months"),
        ("cost_inr", .str "₹10,00,000-₹20,00,000/year"),
        ("biomarker_requirement", .str "MSI and RAS testing mandatory")])]),
   ("prostate_cancer", .dict
    [("cancer_type", .str "Prostate Cancer"),
     ("guideline_source", .str "NCCN Prostate v4.2026"),
     ("guideline_url", .str "https://www.nccn.org/guidelines/category_1"),
     ("biomarker_tests", .list [.str "PSA", .str "Gleason score", .str "BRCA testing"]),
     ("low_risk", .dict
       [("standard_treatment", .str "Active surveillance (preferred)"),
        ("alternatives", .list [.str "Surgery", .str "Radiation therapy"]),
        ("survival_rate", .str ">95% 15-year"),
        ("monitoring", .str "PSA every 6 months, biopsy every 2-5 years"),
        ("cost_inr", .str "₹50,000-₹1,00,000/year (surveillance)")]),
     ("intermediate_risk", .dict
       [("standard_treatment", .str "Radical prostatectomy OR Radiation + ADT (4-6 months)"),
        ("survival_rate", .str "85-95% 10-year"),
        ("recovery", .str "8-16 weeks"),
        ("cost_inr", .str "₹4,00,000-₹8,00,000")]),
     ("high_risk", .dict
       [("standard_treatment", .str "Radiation + ADT (18-36 months)"),
        ("alternative", .str "Radical prostatectomy + extended lymph node dissection"),
        ("survival_rate", .str "70-85% 10-year"),
        ("cost_inr", .str "₹6,00,000-₹12,00,000")]),
     ("metastatic", .dict
       [("castration_sensitive", .str "ADT + Novel hormonal agent OR docetaxel"),
        ("castration_resistant", .str "Abiraterone/Enzalutamide/Docetaxel"),
        ("median_survival", .str "3-5 years"),
        ("cost_inr", .str "₹8,00,000-₹15,00,000/year")])])]

/-- `TREATMENT_RISKS`, the per-modality risk database. -/
def TREATMENT_RISKS : List (String × List String) :=
  [("chemotherapy", ["Nausea", "Hair loss", "Fatigue", "Infection risk", "Neuropathy"]),
   ("radiation", ["Skin changes", "Fatigue", "Local tissue damage"]),
   ("surgery", ["Infection", "Bleeding", "Anesthesia risks"]),
   ("immunotherapy", ["Immune-related side effects", "Fatigue", "Rash"]),
   ("targeted_therapy", ["Diarrhea", "Liver toxicity", "Skin issues", "Hypertension"]),
   ("hormonal_therapy", ["Hot flashes", "Bone loss", "Cardiovascular effects"])]

/-- `GUIDELINE_REFERENCES`, the fixed map of official guideline URLs. -/
def GUIDELINE_REFERENCES : PyVal := .dict
  [("nccn", .str "https://www.nccn.org/guidelines/category_1"),
   ("asco", .str "https://www.asco.org/research-guidelines/quality-guidelines/guidelines"),
   ("esmo", .str "https://www.esmo.org/guidelines/guidelines-by-topic"),
   ("cancer_care_ontario", .str "https://www.cancercareontario.ca/en/guidelines-advice")]

/-! ## Guideline engine: simplification, alignment, risks, analysis -/

/-- The `simplifications` table of
`GuidelineEngine.simplify_treatment_text`, in source order. -/
def simplifications : List (String × String) :=
  [("Neoadjuvant chemotherapy → Surgery → Adjuvant therapy",
    "First, you receive chemotherapy to shrink the tumor. Then surgery to remove it. Finally, additional treatment to prevent cancer from coming back."),
   ("Surgery + Radiation",
    "The tumor is removed through surgery, followed by radiation therapy to kill any remaining cancer cells in the area."),
   ("Neoadjuvant chemotherapy → Surgery → Radiation + Adjuvant therapy",
    "Treatment starts with chemotherapy to shrink the tumor, then surgery to remove it, radiation to target the area, and follow-up treatment to reduce recurrence risk."),
   ("Surgery (lumpectomy) + Radiation",
    "A small surgery removes just the tumor (not the whole breast), followed by radiation to the breast area."),
   ("Surgical resection (lobectomy)",
    "Surgery to remove the part of the lung containing the tumor."),
   ("Surgery + Adjuvant chemotherapy",
    "Surgery removes the tumor, followed by chemotherapy to kill any remaining cancer cells."),
   ("Concurrent chemoradiation → Durvalumab (if PD-L1+)",
    "Chemotherapy and radiation given together, followed by immunotherapy drug (Durvalumab) if tests show your cancer is likely to respond."),
   ("Surgical resection only",
    "Surgery to remove the tumor is the only treatment needed at this stage."),
   ("Surgery + Adjuvant FOLFOX/CAPOX (6 months)",
    "Surgery removes the tumor, followed by 6 months of chemotherapy using drug combinations (FOLFOX or CAPOX)."),
   ("Chemotherapy → Surgery",
    "Chemotherapy first to shrink the tumor, then surgery to remove it."),
   ("Active surveillance (preferred)",
    "Closely monitoring the cancer with regular tests instead of immediate treatment, because the cancer is slow-growing."),
   ("Radical prostatectomy OR Radiation + ADT (4-6 months)",
    "Either complete removal of the prostate through surgery, OR radiation therapy combined with hormone therapy for 4-6 months."),
   ("Radiation + ADT (18-36 months)",
    "Radiation therapy to the prostate area, combined with hormone therapy for 18-36 months to shrink the cancer.")]

/-- The `replacements` table of `simplify_treatment_text`, in source
(insertion) order. -/
def replacements : List (String × String) :=
  [("adjuvant", "follow-up"),
   ("neoadjuvant", "pre-surgery"),
   ("resection", "surgical removal"),
   ("lobectomy", "lung surgery"),
   ("lumpectomy", "tumor removal surgery"),
   ("mastectomy", "breast removal surgery"),
   ("prostatectomy", "prostate removal surgery"),
   ("→", ", then"),
   ("+", " combined with"),
   ("CDK4/6 inhibitor", "cancer growth blocker"),
   ("hormonal therapy", "hormone treatment"),
   ("immunotherapy", "immune system treatment"),
   ("palliative", "symptom management")]

/-- `GuidelineEngine.simplify_treatment_text` (its `cancer_type` and
`stage` parameters are unused in the source as well). -/
def simplify_treatment_text (technical_text : String) (cancer_type stage : String) : String :=
  match simplifications.find? fun kv => kv.1 == technical_text with
  | some kv => kv.2
  | Option.none =>
      replacements.foldl (fun simplified mr => pyReplace simplified mr.1 mr.2)
        technical_text

/-- `GuidelineEngine.simplify_evidence_level`. -/
def simplify_evidence_level (evidence_level : String) : String :=
  let explanations : List (String × String) :=
    [("Category 1", "Highest confidence - Based on extensive research and expert agreement. This is the standard treatment that doctors worldwide recommend."),
     ("Category 2A", "High confidence - Strong evidence supports this approach. Most doctors would recommend this."),
     ("Category 2B", "Moderate confidence - Some evidence supports this, but there may be other good options too."),
     ("Category 3", "Lower confidence - Limited research available. Doctors may disagree on this approach.")]
  match explanations.find? fun kv => kv.1 == evidence_level with
  | some kv => kv.2
  | Option.none => "This treatment is supported by medical research and clinical experience."

/-- The list iterated by the `alternatives` comprehension of
`_check_treatment_alignment`: the elements of
`stage_guideline.get('alternatives', [])`. -/
def alignAlternatives (stage_guideline : PyVal) : List PyVal :=
  match pyGetD stage_guideline "alternatives" (.list []) with
  | .list alts => alts
  | v => [v]

/-- `GuidelineEngine._check_treatment_alignment`: some whitespace token
of the (already lowered) treatment text occurs in the lowered
standard-treatment text, the lowered adjuvant-therapy text, or one of
the lowered alternative texts. -/
def check_treatment_alignment (treatment : String) (stage_guideline : PyVal) : Bool :=
  let standard := pyLower (pyStr (pyGetD stage_guideline "standard_treatment" (.str "")))
  let alternatives := (alignAlternatives stage_guideline).map fun alt => pyLower (pyStr alt)
  let adjuvant := pyLower (pyStr (pyGetD stage_guideline "adjuvant_therapy" (.str "")))
  ([standard, adjuvant] ++ alternatives).any fun guideline_text =>
    (pySplit treatment).any fun keyword => pyIn keyword guideline_text

/-- `GuidelineEngine._get_alignment_details`. -/
def get_alignment_details (treatment : String) (stage_guideline : PyVal) : String :=
  let standard := pyStr (pyGetD stage_guideline "standard_treatment" (.str "N/A"))
  if (pySplit treatment).any fun word => pyIn word (pyLower standard) then
    "✓ Your recommended treatment matches the standard guideline approach"
  else
    "⚠ Your recommended treatment differs from the standard guideline"

/-- `GuidelineEngine._get_treatment_risks`: concatenate the risk lists
of every modality whose name occurs in the (lowered) treatment text,
with a fallback entry when none matches. -/
def get_treatment_risks (treatment : String) : List String :=
  let risks := TREATMENT_RISKS.foldl
    (fun risks mr => if pyIn mr.1 treatment then risks ++ mr.2 else risks) []
  if risks.isEmpty then ["Consult oncologist for specific risks"] else risks

/-- The `status: incomplete` result of STEP 1 of
`GuidelineEngine.analyze_treatment` (invalid symptoms). -/
def invalid_symptoms_result : PyVal := .dict
  [("status", .str "incomplete"),
   ("message", .str "Please provide valid cancer-related symptoms or diagnosis information."),
   ("validation_error", .bool true),
   ("suggestion", .str "Please provide meaningful information that includes:\n\n• Cancer type (breast, lung, colorectal, or prostate cancer)\n• Stage information (Stage 0, I, II, III, or IV) \n• Relevant symptoms or diagnosis details\n\nExamples of valid input:\n✓ \"Stage II breast cancer, HER2 positive\"\n✓ \"Lung cancer stage III, EGFR positive\"  \n✓ \"Colorectal cancer stage IV with liver metastases\"\n✗ Random characters or unrelated text")]

/-- The `status: incomplete` result of STEP 2 of
`GuidelineEngine.analyze_treatment` (invalid treatment). -/
def invalid_treatment_result : PyVal := .dict
  [("status", .str "incomplete"),
   ("message", .str "Please provide a valid cancer treatment."),
   ("validation_error", .bool true),
   ("suggestion", .str "Valid cancer treatments include:\n\n• Chemotherapy / Chemo\n• Radiation therapy / Radiotherapy\n• Surgery / Surgical resection\n• Immunotherapy (e.g., Pembrolizumab, Nivolumab)\n• Targeted therapy (e.g., Trastuzumab, Osimertinib)\n• Hormonal therapy / Hormone therapy\n\nExamples:\n✓ \"Chemotherapy\"\n✓ \"Surgery followed by radiation\"\n✓ \"Targeted therapy with Trastuzumab\"\n✗ Random characters or unrelated treatments")]

/-- The `status: incomplete` result of STEP 3 of
`GuidelineEngine.analyze_treatment` (no cancer type identified). -/
def unknown_cancer_type_result : PyVal := .dict
  [("status", .str "incomplete"),
   ("message", .str "Unable to identify specific cancer type. Please specify (breast, lung, colorectal, or prostate cancer)."),
   ("validation_error", .bool true),
   ("suggestion", .str "Currently supported cancer types:\n• Breast Cancer\n• Lung Cancer (NSCLC)\n• Colorectal Cancer\n• Prostate Cancer")]

/-- The `status: not_found` result of STEP 4 of
`GuidelineEngine.analyze_treatment` (no guideline data). -/
def guidelines_unavailable_result : PyVal := .dict
  [("status", .str "not_found"),
   ("message", .str "Guidelines not available for this cancer type."),
   ("validation_error", .bool true)]

/-- The `status: incomplete` result of STEP 5 of
`GuidelineEngine.analyze_treatment` (no stage identified). -/
def stage_missing_result (guideline_data : PyVal) : PyVal := .dict
  [("status", .str "incomplete"),
   ("message", .str "Cancer stage not specified. Please include staging information (Stage 0, I, II, III, or IV)."),
   ("cancer_type", pyLookup guideline_data "cancer_type" |>.getD PyVal.none),
   ("guideline_source", pyLookup guideline_data "guideline_source" |>.getD PyVal.none),
   ("biomarker_tests_required", pyGetD guideline_data "biomarker_tests" (.list [])),
   ("validation_error", .bool true),
   ("suggestion", .str "Please specify the cancer stage:\n• Stage 0 (in situ)\n• Stage I (early)\n• Stage II (local spread)\n• Stage III (regional)\n• Stage IV (metastatic)")]

/-- The `status: not_found` result of STEP 6 of
`GuidelineEngine.analyze_treatment` (no stage-specific guideline). -/
def stage_not_found_result (stage : String) : PyVal := .dict
  [("status", .str "not_found"),
   ("message", .str ("Guidelines not available for " ++ format_stage_display stage ++ ".")),
   ("validation_error", .bool true)]

/-- The `status: found` result assembled in STEPS 7-9 of
`GuidelineEngine.analyze_treatment`. -/
def found_result (symptoms recommended_treatment : String) (guideline_data : PyVal)
    (stage : String) (stage_guideline : PyVal) : PyVal :=
  let treatment_lower := pyLower recommended_treatment
  let is_aligned := check_treatment_alignment treatment_lower stage_guideline
  let technical_treatment := pyGetD stage_guideline "standard_treatment" (.str "N/A")
  let simplified_treatment :=
    simplify_treatment_text (pyStr technical_treatment)
      (pyStrOf (pyLookup guideline_data "cancer_type" |>.getD PyVal.none)) stage
  let evidence_level := pyGetD stage_guideline "evidence_level" (.str "N/A")
  let evidence_explanation := simplify_evidence_level (pyStr evidence_level)
  .dict
  [("status", .str "found"),
   ("validation_error", .bool false),
   ("cancer_type", pyLookup guideline_data "cancer_type" |>.getD PyVal.none),
   ("stage", .str (format_stage_display stage)),
   ("stage_description", .str (((CANCER_STAGES.find? fun kv => kv.1 == stage).map fun kv => kv.2).getD "N/A")),
   ("recommended_treatment", .str recommended_treatment),
   ("guideline_source", pyLookup guideline_data "guideline_source" |>.getD PyVal.none),
   ("guideline_url", pyGet guideline_data "guideline_url"),
   ("biomarker_tests_required", pyGetD guideline_data "biomarker_tests" (.list [])),
   ("alignment", .str (if is_aligned then "Aligned with Guidelines" else "Requires Verification")),
   ("alignment_details", .str (get_alignment_details treatment_lower stage_guideline)),
   ("standard_treatment", technical_treatment),
   ("standard_treatment_simple", .str simplified_treatment),
   ("standard_treatment_technical", technical_treatment),
   ("alternative_treatments", pyGetD stage_guideline "alternatives" (.list [])),
   ("survival_rate", pyGetD stage_guideline "survival_rate" (.str "N/A")),
   ("recovery_time", pyGetD stage_guideline "recovery" (.str "N/A")),
   ("estimated_cost", pyGetD stage_guideline "cost_inr" (.str "N/A")),
   ("evidence_level", evidence_level),
   ("evidence_explanation", .str evidence_explanation),
   ("adjuvant_therapy", pyGetD stage_guideline "adjuvant_therapy" (.dict [])),
   ("contraindications", pyGetD stage_guideline "contraindications" (.list [])),
   ("special_notes", pyGetD stage_guideline "biomarker_requirement" (.str "")),
   ("potential_risks", .list ((get_treatment_risks treatment_lower).map PyVal.str)),
   ("official_guidelines", GUIDELINE_REFERENCES)]

/-- `GuidelineEngine.analyze_treatment`: the main guideline analysis
with its sequence of validation, lookup and assembly steps. -/
def analyze_treatment (symptoms recommended_treatment : String) : PyVal :=
  if !is_valid_cancer_input symptoms then invalid_symptoms_result
  else if !is_valid_treatment recommended_treatment then invalid_treatment_result
  else
    match normalize_cancer_type symptoms with
    | Option.none => unknown_cancer_type_result
    | some cancer_type =>
      let guideline_data := pyGet ONCOLOGY_GUIDELINES cancer_type
      if !pyTruthy guideline_data then guidelines_unavailable_result
      else
        match normalize_stage symptoms with
        | Option.none => stage_missing_result guideline_data
        | some stage =>
          let stage_guideline := pyGet guideline_data stage
          if !pyTruthy stage_guideline then stage_not_found_result stage
          else found_result symptoms recommended_treatment guideline_data stage stage_guideline

/-! ## Rule-based knowledge base (`app.py`) -/

/-- `TREATMENT_DATABASE`, the rule-based knowledge base, in source
(insertion) order. -/
def TREATMENT_DATABASE : List (String × PyVal) :=
  [("chemotherapy", .dict
    [("indications", .list [.str "breast cancer", .str "lung cancer", .str "leukemia", .str "lymphoma", .str "colon cancer"]),
     ("risks", .list [.str "Nausea and vomiting", .str "Hair loss", .str "Fatigue", .str "Increased infection risk", .str "Anemia"]),
     ("recovery_time", .str "6-12 months"),
     ("urgency", .str "High - Start within 2-4 weeks of diagnosis"),
     ("survival_rate", .str "60-80%"),
     ("estimated_cost", .str "₹4,00,000 - ₹7,50,000"),
     ("cost_usd", .str "$5,000 - $9,000"),
     ("myths", .dict
       [("myth1", .str "Chemotherapy is always necessary for all cancers"),
        ("fact1", .str "Treatment depends on cancer type, stage, and individual factors"),
        ("myth2", .str "Chemotherapy always causes severe side effects"),
        ("fact2", .str "Side effects vary; modern medications help manage them effectively")])]),
   ("radiation therapy", .dict
    [("indications", .list [.str "localized tumors", .str "brain cancer", .str "prostate cancer", .str "breast cancer"]),
     ("risks", .list [.str "Skin irritation", .str "Fatigue", .str "Localized pain", .str "Long-term tissue changes"]),
     ("recovery_time", .str "3-6 months"),
     ("urgency", .str "Moderate - Typically within 4-6 weeks"),
     ("survival_rate", .str "65-85%"),
     ("estimated_cost", .str "₹3,20,000 - ₹6,00,000"),
     ("cost_usd", .str "$4,000 - $7,500"),
     ("myths", .dict
       [("myth1", .str "Radiation makes you radioactive"),
        ("fact1", .str "External radiation does not make you radioactive"),
        ("myth2", .str "Radiation always burns the skin"),
        ("fact2", .str "Modern techniques minimize skin damage significantly")])]),
   ("surgery", .dict
    [("indications", .list [.str "solid tumors", .str "localized cancer", .str "early-stage cancer", .str "tumor biopsy"]),
     ("risks", .list [.str "Infection", .str "Bleeding", .str "Anesthesia complications", .str "Organ damage"]),
     ("recovery_time", .str "4-8 weeks"),
     ("urgency", .str "High - Timing depends on cancer stage"),
     ("survival_rate", .str "70-90%"),
     ("estimated_cost", .str "₹4,80,000 - ₹9,00,000"),
     ("cost_usd", .str "$6,000 - $11,000"),
     ("myths", .dict
       [("myth1", .str "Surgery causes cancer to spread"),
        ("fact1", .str "Proper surgical techniques prevent spread; surgery often cures localized cancer"),
        ("myth2", .str "All tumors require immediate surgery"),
        ("fact2", .str "Some cancers respond better to other treatments first")])]),
   ("immunotherapy", .dict
    [("indications", .list [.str "melanoma", .str "lung cancer", .str "kidney cancer", .str "bladder cancer"]),
     ("risks", .list [.str "Immune-related side effects", .str "Fatigue", .str "Skin reactions", .str "Digestive issues"]),
     ("recovery_time", .str "3-6 months"),
     ("urgency", .str "Moderate - Best results when started early"),
     ("survival_rate", .str "55-75%"),
     ("estimated_cost", .str "₹8,00,000 - ₹15,00,000"),
     ("cost_usd", .str "$10,000 - $18,000"),
     ("myths", .dict
       [("myth1", .str "Immunotherapy works for everyone"),
        ("fact1", .str "Effectiveness varies; biomarker testing helps predict response"),
        ("myth2", .str "Immunotherapy has no side effects"),
        ("fact2", .str "Can cause immune system overactivity affecting various organs")])]),
   ("targeted therapy", .dict
    [("indications", .list [.str "HER2+ breast cancer", .str "EGFR+ lung cancer", .str "BRAF mutated melanoma"]),
     ("risks", .list [.str "Diarrhea", .str "Liver problems", .str "Skin issues", .str "High blood pressure"]),
     ("recovery_time", .str "2-4 months"),
     ("urgency", .str "Moderate - Requires genetic testing first"),
     ("survival_rate", .str "65-85%"),
     ("estimated_cost", .str "₹9,60,000 - ₹18,00,000"),
     ("cost_usd", .str "$12,000 - $22,000"),
     ("myths", .dict
       [("myth1", .str "Targeted therapy is always better than chemotherapy"),
        ("fact1", .str "Effective only for specific genetic mutations"),
        ("myth2", .str "Targeted therapy is side-effect free"),
        ("fact2", .str "Has different, sometimes serious side effects")])]),
   ("hormonal therapy", .dict
    [("indications", .list [.str "breast cancer (ER/PR+)", .str "prostate cancer", .str "endometrial cancer", .str "ovarian cancer"]),
     ("risks", .list [.str "Hot flashes", .str "Bone loss (osteoporosis)", .str "Cardiovascular effects", .str "Mood changes", .str "Sexual dysfunction"]),
     ("recovery_time", .str "5-10 years (often long-term maintenance)"),
     ("urgency", .str "Moderate - Usually adjuvant therapy"),
     ("survival_rate", .str "70-90% (varies by cancer type and stage)"),
     ("estimated_cost", .str "₹2,00,000 - ₹8,00,000/year"),
     ("cost_usd", .str "$2,500 - $10,000/year"),
     ("myths", .dict
       [("myth1", .str "Hormonal therapy is only for women"),
        ("fact1", .str "Used for both men (prostate cancer) and women (breast/endometrial cancer)"),
        ("myth2", .str "Hormonal therapy always causes severe side effects"),
        ("fact2", .str "Side effects vary; many patients tolerate it well with management")])]),
   ("radiofrequency ablation", .dict
    [("indications", .list [.str "liver cancer", .str "kidney cancer", .str "lung cancer", .str "bone metastases", .str "small localized tumors"]),
     ("risks", .list [.str "Pain at treatment site", .str "Infection", .str "Bleeding", .str "Organ damage", .str "Nerve injury"]),
     ("recovery_time", .str "1-2 weeks"),
     ("urgency", .str "Moderate - For localized tumors not suitable for surgery"),
     ("survival_rate", .str "60-80% (varies by tumor size and location)"),
     ("estimated_cost", .str "₹3,00,000 - ₹6,00,000"),
     ("cost_usd", .str "$3,750 - $7,500"),
     ("myths", .dict
       [("myth1", .str "Radiofrequency ablation is the same as radiation therapy"),
        ("fact1", .str "RFA uses heat from radiofrequency waves, not ionizing radiation"),
        ("myth2", .str "RFA can treat any size tumor"),
        ("fact2", .str "Most effective for small tumors (usually <3-5 cm)")])]),
   ("stem cell transplant", .dict
    [("indications", .list [.str "leukemia", .str "lymphoma", .str "multiple myeloma", .str "aplastic anemia", .str "some solid tumors"]),
     ("risks", .list [.str "Severe infections", .str "Graft vs host disease", .str "Organ damage", .str "Secondary cancers", .str "Infertility"]),
     ("recovery_time", .str "6-12 months"),
     ("urgency", .str "High - Often required for cure in blood cancers"),
     ("survival_rate", .str "50-80% (varies by disease and donor match)"),
     ("estimated_cost", .str "₹20,00,000 - ₹40,00,000"),
     ("cost_usd", .str "$25,000 - $50,000"),
     ("myths", .dict
       [("myth1", .str "Stem cell transplant always cures the disease"),
        ("fact1", .str "Success depends on disease type, stage, and patient condition"),
        ("myth2", .str "Stem cell transplant is extremely painful"),
        ("fact2", .str "Pain is managed with medications; procedure itself is not painful")])]),
   ("cryotherapy", .dict
    [("indications", .list [.str "skin cancer", .str "cervical cancer", .str "prostate cancer", .str "liver cancer", .str "kidney cancer", .str "retinoblastoma"]),
     ("risks", .list [.str "Pain and discomfort", .str "Blistering", .str "Infection", .str "Scarring", .str "Nerve damage", .str "Organ perforation"]),
     ("recovery_time", .str "1-4 weeks"),
     ("urgency", .str "Moderate - For localized early-stage cancers"),
     ("survival_rate", .str "70-95% (varies by cancer type and stage)"),
     ("estimated_cost", .str "₹50,000 - ₹3,00,000"),
     ("cost_usd", .str "$625 - $3,750"),
     ("myths", .dict
       [("myth1", .str "Cryotherapy is only for skin conditions"),
        ("fact1", .str "Used for various cancers including prostate, liver, and cervical cancer"),
        ("myth2", .str "Cryotherapy always causes severe pain"),
        ("fact2", .str "Local anesthesia and pain management make it tolerable for most patients")])]),
   ("active surveillance", .dict
    [("indications", .list [.str "low-risk prostate cancer", .str "early-stage thyroid cancer", .str "small renal masses", .str "ductal carcinoma in situ (DCIS)"]),
     ("risks", .list [.str "Disease progression during monitoring", .str "Anxiety and stress", .str "Need for more frequent testing", .str "Delayed treatment if progression occurs"]),
     ("recovery_time", .str "Ongoing monitoring (no active treatment)"),
     ("urgency", .str "Low - For very low-risk cancers where immediate treatment may not be necessary"),
     ("survival_rate", .str "95-100% (for appropriately selected low-risk cases)"),
     ("estimated_cost", .str "₹20,000 - ₹50,000/year"),
     ("cost_usd", .str "$250 - $625/year"),
     ("myths", .dict
       [("myth1", .str "Active surveillance means doing nothing"),
        ("fact1", .str "Involves regular monitoring with PSA tests, biopsies, and imaging to detect changes early"),
        ("myth2", .str "Active surveillance is riskier than immediate treatment"),
        ("fact2", .str "For low-risk cancers, survival rates are excellent and avoids unnecessary treatment side effects")])]),
   ("photodynamic therapy", .dict
    [("indications", .list [.str "skin cancer", .str "esophageal cancer", .str "lung cancer", .str "bladder cancer", .str "head and neck cancers", .str "actinic keratosis"]),
     ("risks", .list [.str "Skin sensitivity to light", .str "Burns and blisters", .str "Pain during treatment", .str "Infection", .str "Scarring", .str "Eye damage"]),
     ("recovery_time", .str "2-6 weeks"),
     ("urgency", .str "Moderate - For superficial cancers and precancerous conditions"),
     ("survival_rate", .str "60-90% (varies by cancer type and stage)"),
     ("estimated_cost", .str "₹1,00,000 - ₹5,00,000"),
     ("cost_usd", .str "$1,250 - $6,250"),
     ("myths", .dict
       [("myth1", .str "PDT is only for skin problems"),
        ("fact1", .str "Used for various cancers including lung, bladder, and esophageal cancer"),
        ("myth2", .str "PDT requires prolonged light avoidance"),
        ("fact2", .str "Light sensitivity typically resolves within 4-6 weeks with proper precautions")])])]

/-! ## Rule-based analysis (`app.py`) -/

/-- The `alternative_mappings` table of `generate_safe_alternatives`. -/
def alternative_mappings : List (String × List String) :=
  [("chemotherapy", ["radiation therapy", "surgery", "targeted therapy", "hormonal therapy", "immunotherapy"]),
   ("radiation therapy", ["chemotherapy", "surgery", "immunotherapy", "radiofrequency ablation", "cryotherapy"]),
   ("surgery", ["chemotherapy", "radiation therapy", "targeted therapy", "radiofrequency ablation", "cryotherapy"]),
   ("immunotherapy", ["chemotherapy", "targeted therapy", "radiation therapy", "stem cell transplant"]),
   ("targeted therapy", ["chemotherapy", "immunotherapy", "surgery", "hormonal therapy", "stem cell transplant"]),
   ("hormonal therapy", ["chemotherapy", "targeted therapy", "surgery", "active surveillance"]),
   ("radiofrequency ablation", ["surgery", "radiation therapy", "chemotherapy", "cryotherapy"]),
   ("stem cell transplant", ["chemotherapy", "targeted therapy", "immunotherapy", "radiation therapy"]),
   ("cryotherapy", ["surgery", "radiation therapy", "radiofrequency ablation", "photodynamic therapy"]),
   ("active surveillance", ["hormonal therapy", "cryotherapy", "photodynamic therapy"]),
   ("photodynamic therapy", ["radiation therapy", "cryotherapy", "surgery", "chemotherapy"])]

/-- `generate_safe_alternatives` (its `symptoms` parameter is unused in
the source as well). -/
def generate_safe_alternatives (current_treatment symptoms : String) : PyVal :=
  match alternative_mappings.find? fun kv => kv.1 == current_treatment with
  | Option.none => .list []
  | some kv => .list <|
      (kv.2.filter fun alt => (TREATMENT_DATABASE.map fun e => e.1).contains alt).map fun alt =>
        let data := pyGet (.dict TREATMENT_DATABASE) alt
        .dict
          [("name", .str (pyTitle alt)),
           ("survival_rate", pyGet data "survival_rate"),
           ("recovery_time", pyGet data "recovery_time"),
           ("estimated_cost", pyGet data "estimated_cost")]

/-- The `status: incomplete` result of validation step 1 of
`analyze_treatment_rule_based` (invalid symptoms). -/
def rb_invalid_symptoms_result : PyVal := .dict
  [("status", .str "incomplete"),
   ("analysis_type", .str "rule_based"),
   ("message", .str "Please provide valid cancer-related symptoms or diagnosis information."),
   ("suggestion", .str "Please provide meaningful information that includes:\n\n• Cancer type or symptoms (breast cancer, lung cancer, etc.)\n• Any relevant medical details\n\nExamples of valid input:\n✓ \"Breast cancer with tumor\"\n✓ \"Lung cancer symptoms\"\n✓ \"Leukemia diagnosis\"\n✗ Random characters or unrelated text")]

/-- The `status: incomplete` result of validation step 2 of
`analyze_treatment_rule_based` (invalid treatment). -/
def rb_invalid_treatment_result : PyVal := .dict
  [("status", .str "incomplete"),
   ("analysis_type", .str "rule_based"),
   ("message", .str "Please provide a valid cancer treatment."),
   ("suggestion", .str "Valid cancer treatments include:\n\n• Chemotherapy / Chemo\n• Radiation therapy / Radiotherapy\n• Surgery / Surgical resection\n• Immunotherapy\n• Targeted therapy\n• Hormonal therapy\n\nExamples:\n✓ \"Chemotherapy\"\n✓ \"Surgery followed by radiation\"\n✗ Random characters or unrelated treatments")]

/-- The `status: not_found` result of `analyze_treatment_rule_based`
(treatment not in the database). -/
def rb_not_found_result : PyVal := .dict
  [("status", .str "not_found"),
   ("message", .str "Treatment not found in our database."),
   ("analysis_type", .str "rule_based")]

/-- First key of `TREATMENT_DATABASE` occurring in the lowered
treatment text — the matching loop of `analyze_treatment_rule_based`. -/
def matchTreatmentKey (treatment_lower : String) : Option String :=
  (TREATMENT_DATABASE.map fun e => e.1).find? fun key => pyIn key treatment_lower

/-- The `status: found` result of `analyze_treatment_rule_based`. -/
def rb_found_result (symptoms treatment matched_treatment : String) : PyVal :=
  let treatment_data := pyGet (.dict TREATMENT_DATABASE) matched_treatment
  let symptoms_lower := pyLower symptoms
  let matching_indications :=
    (pyStrListOf (pyGet treatment_data "indications")).filter fun ind => pyIn ind symptoms_lower
  let appropriateness :=
    if matching_indications ≠ [] then "Appropriate" else "Requires Verification"
  let safe_alternatives := generate_safe_alternatives matched_treatment symptoms
  .dict
  [("status", .str "found"),
   ("analysis_type", .str "rule_based"),
   ("treatment_name", .str (pyTitle matched_treatment)),
   ("appropriateness", .str appropriateness),
   ("matching_indications", .list (matching_indications.map PyVal.str)),
   ("all_indications", pyGet treatment_data "indications"),
   ("risks", pyGet treatment_data "risks"),
   ("recovery_time", pyGet treatment_data "recovery_time"),
   ("urgency", pyGet treatment_data "urgency"),
   ("survival_rate", pyGet treatment_data "survival_rate"),
   ("estimated_cost", pyGet treatment_data "estimated_cost"),
   ("cost_usd", pyGet treatment_data "cost_usd"),
   ("myths", pyGet treatment_data "myths"),
   ("safe_alternatives", safe_alternatives)]

/-- `analyze_treatment_rule_based`: validation, database matching, and
the rule-based appropriateness classification. -/
def analyze_treatment_rule_based (symptoms treatment : String) : PyVal :=
  if !is_valid_cancer_input symptoms then rb_invalid_symptoms_result
  else if !is_valid_treatment treatment then rb_invalid_treatment_result
  else
    let treatment_lower := pyLower treatment
    match matchTreatmentKey treatment_lower with
    | Option.none => rb_not_found_result
    | some matched_treatment => rb_found_result symptoms treatment matched_treatment

/-! ## Combined analysis (`app.py`, `analyze_treatment_combined`) -/

/-- The guideline-primary combination built by
`analyze_treatment_combined` when the guideline analysis is `found`;
when the rule-based analysis is also `found` it overlays the myth map
and the urgency field and replaces the risk list by
`list(set(rule_risks + guideline_risks))`. -/
def combined_guideline_found (treatment : String) (guideline_result rule_based_result : PyVal) :
    PyVal :=
  let combined_result : List (String × PyVal) :=
    [("status", .str "found"),
     ("analysis_type", .str "combined"),
     ("primary_source", .str "guideline"),
     ("cancer_type", pyGet guideline_result "cancer_type"),
     ("stage", pyGet guideline_result "stage"),
     ("stage_description", pyGet guideline_result "stage_description"),
     ("guideline_source", pyGet guideline_result "guideline_source"),
     ("guideline_url", pyGet guideline_result "guideline_url"),
     ("alignment", pyGet guideline_result "alignment"),
     ("alignment_details", pyGet guideline_result "alignment_details"),
     ("standard_treatment", pyGet guideline_result "standard_treatment"),
     ("standard_treatment_simple", pyGet guideline_result "standard_treatment_simple"),
     ("standard_treatment_technical",
       pyGetD guideline_result "standard_treatment_technical"
         (pyGet guideline_result "standard_treatment")),
     ("alternative_treatments", pyGet guideline_result "alternative_treatments"),
     ("biomarker_tests_required", pyGet guideline_result "biomarker_tests_required"),
     ("evidence_level", pyGet guideline_result "evidence_level"),
     ("adjuvant_therapy", pyGet guideline_result "adjuvant_therapy"),
     ("contraindications", pyGet guideline_result "contraindications"),
     ("special_notes", pyGet guideline_result "special_notes"),
     ("official_guidelines", pyGet guideline_result "official_guidelines"),
     ("survival_rate", pyGet guideline_result "survival_rate"),
     ("recovery_time", pyGetD guideline_result "recovery" (.str "N/A")),
     ("estimated_cost", pyGet guideline_result "estimated_cost"),
     ("risks", pyGetD guideline_result "potential_risks" (.list [])),
     ("treatment_name", pyGetD rule_based_result "treatment_name" (.str (pyTitle treatment)))]
  if pyStrOf (pyGet rule_based_result "status") == "found" then
    let combined_result := pySet combined_result "myths" (pyGetD rule_based_result "myths" (.dict []))
    let combined_result :=
      pySet combined_result "urgency" (pyGetD rule_based_result "urgency" (.str "Consult oncologist"))
    let rule_risks := pyStrListOf (pyGetD rule_based_result "risks" (.list []))
    let guideline_risks := pyStrListOf (pyGetD guideline_result "potential_risks" (.list []))
    .dict (pySet combined_result "risks"
      (.list ((pyListSet (rule_risks ++ guideline_risks)).map PyVal.str)))
  else .dict combined_result

/-- The `status: not_found` result of `analyze_treatment_combined` when
both analyses fail. -/
def combined_both_failed_result : PyVal := .dict
  [("status", .str "not_found"),
   ("analysis_type", .str "combined"),
   ("message", .str "Treatment analysis not available. Please consult with a healthcare professional.")]

/-- `analyze_treatment_combined`: guideline-based analysis first,
rule-based analysis as supplement or fallback. -/
def analyze_treatment_combined (symptoms treatment : String) : PyVal :=
  let guideline_result := analyze_treatment symptoms treatment
  let rule_based_result := analyze_treatment_rule_based symptoms treatment
  if pyStrOf (pyGet guideline_result "status") == "found" then
    combined_guideline_found treatment guideline_result rule_based_result
  else if pyStrOf (pyGet guideline_result "status") == "incomplete" then
    if pyStrOf (pyGet rule_based_result "status") == "found" then
      let combined_result := pyDictOf rule_based_result
      let combined_result := pySet combined_result "analysis_type" (.str "combined")
      let combined_result := pySet combined_result "primary_source" (.str "rule_based")
      let combined_result := pySet combined_result "guideline_note" (pyGet guideline_result "message")
      let combined_result := pySet combined_result "cancer_type" (pyGet guideline_result "cancer_type")
      let combined_result :=
        pySet combined_result "guideline_source" (pyGet guideline_result "guideline_source")
      let combined_result :=
        pySet combined_result "biomarker_tests_required"
          (pyGetD guideline_result "biomarker_tests_required" (.list []))
      .dict combined_result
    else guideline_result
  else
    if pyStrOf (pyGet rule_based_result "status") == "found" then
      let rule_based_result := pyDictOf rule_based_result
      let rule_based_result := pySet rule_based_result "analysis_type" (.str "combined")
      let rule_based_result := pySet rule_based_result "primary_source" (.str "rule_based")
      let rule_based_result :=
        pySet rule_based_result "guideline_note"
          (.str "Guidelines not available for this cancer type")
      .dict rule_based_result
    else combined_both_failed_result

/-! ## Basic lemmas about the dictionary model -/

theorem lookupKV_pySet_self (kvs : List (String × PyVal)) (k : String) (v : PyVal) :
    lookupKV (pySet kvs k v) k = some v := by
  induction kvs with
  | nil => simp [pySet, lookupKV]
  | cons kv rest ih =>
    by_cases h : kv.1 == k
    · simp [pySet, lookupKV, h]
    · simp only [pySet, lookupKV, h, Bool.false_eq_true, if_false, if_neg]
      simpa [h] using ih

theorem lookupKV_pySet_ne {kc k : String} (h : (kc == k) = false)
    (kvs : List (String × PyVal)) (v : PyVal) :
    lookupKV (pySet kvs kc v) k = lookupKV kvs k := by
  induction kvs with
  | nil => simp [pySet, lookupKV, h]
  | cons kv rest ih =>
    by_cases hkv : kv.1 == kc
    · have hkv1 : kv.1 = kc := by simpa [beq_iff_eq] using hkv
      simp [pySet, lookupKV, hkv, hkv1, h]
    · simp only [pySet, lookupKV, hkv, Bool.false_eq_true, if_false, if_neg]
      by_cases hk : kv.1 == k
      · simp [lookupKV, hk]
      · simp [lookupKV, hk, ih]

theorem pyStrListOf_map_str (l : List String) :
    pyStrListOf (.list (l.map PyVal.str)) = l := by
  induction l with
  | nil => simp [pyStrListOf]
  | cons x xs ih => simpa [pyStrListOf] using congrArg (List.cons x) (by simpa [pyStrListOf] using ih)

theorem mem_pyListSet (a : String) (l : List String) : a ∈ pyListSet l ↔ a ∈ l := by
  induction l with
  | nil => simp [pyListSet]
  | cons x xs ih =>
    by_cases hx : x ∈ xs
    · simp only [pyListSet, if_pos hx, ih, List.mem_cons]
      constructor
      · exact fun h => Or.inr h
      · rintro (rfl | h)
        · exact hx
        · exact h
    · simp [pyListSet, if_neg hx, List.mem_cons, ih]

theorem nodup_pyListSet (l : List String) : (pyListSet l).Nodup := by
  induction l with
  | nil => simp [pyListSet]
  | cons x xs ih =>
    by_cases hx : x ∈ xs
    · simpa [pyListSet, if_pos hx] using ih
    · simp only [pyListSet, if_neg hx]
      exact List.Nodup.cons (fun h => hx ((mem_pyListSet x xs).1 h)) ih

theorem wordsAux_ne_nil (cs : List Char) :
    ∀ cur l, l ∈ wordsAux cs cur → l ≠ [] := by
  induction cs with
  | nil =>
    intro cur l hl
    by_cases hc : cur.isEmpty
    · simp [wordsAux, hc] at hl
    · simp only [wordsAux, hc, Bool.false_eq_true, if_false, if_neg, List.mem_singleton] at hl
      subst hl
      simp only [ne_eq, List.reverse_eq_nil_iff]
      intro hcur
      simp [hcur] at hc
  | cons c cs ih =>
    intro cur l hl
    by_cases hw : c.isWhitespace
    · by_cases hc : cur.isEmpty
      · exact ih [] l (by simpa [wordsAux, hw, hc] using hl)
      · simp only [wordsAux, hw, if_pos, hc, Bool.false_eq_true, if_false, if_neg,
          List.mem_cons] at hl
        rcases hl with rfl | hl
        · simp only [ne_eq, List.reverse_eq_nil_iff]
          intro hcur
          simp [hcur] at hc
        · exact ih [] l hl
    · exact ih (c :: cur) l (by simpa [wordsAux, hw] using hl)

theorem pySplit_ne_empty (s : String) : ∀ w ∈ pySplit s, w ≠ "" := by
  intro w hw
  simp only [pySplit, List.mem_map] at hw
  obtain ⟨l, hl, rfl⟩ := hw
  have hne := wordsAux_ne_nil s.data [] l hl
  intro hcontra
  exact hne (by simpa using congrArg String.data hcontra)

theorem pyIn_empty_hay (w : String) (h : w ≠ "") : pyIn w "" = false := by
  have hd : w.data ≠ [] := by
    intro hdata
    apply h
    cases w with
    | mk d =>
      have hd0 : d = [] := hdata
      subst hd0
      rfl
  show isSubList w.data [] = false
  cases hw : w.data with
  | nil => exact absurd hw hd
  | cons c cs => rfl

/-! ## Case analyses of the analyzers -/

theorem normalize_cancer_type_cases (s : String) :
    normalize_cancer_type s = Option.none ∨
    normalize_cancer_type s = some "breast_cancer" ∨
    normalize_cancer_type s = some "lung_cancer" ∨
    normalize_cancer_type s = some "colorectal_cancer" ∨
    normalize_cancer_type s = some "prostate_cancer" := by
  cases hf : cancer_mapping.find? fun kv => pyIn kv.1 (pyLower s) with
  | none => exact Or.inl (by simp [normalize_cancer_type, hf])
  | some kv =>
    have hmem := List.mem_of_find?_eq_some hf
    simp only [cancer_mapping, List.mem_cons, List.not_mem_nil, or_false] at hmem
    rcases hmem with rfl | rfl | rfl | rfl | rfl | rfl | rfl | rfl <;>
      simp [normalize_cancer_type, hf]

theorem normalize_stage_cases (s : String) :
    normalize_stage s = Option.none ∨
    normalize_stage s = some "stage_iv" ∨
    normalize_stage s = some "stage_iii" ∨
    normalize_stage s = some "stage_ii" ∨
    normalize_stage s = some "stage_i" ∨
    normalize_stage s = some "stage_0" ∨
    normalize_stage s = some "low_risk" ∨
    normalize_stage s = some "intermediate_risk" ∨
    normalize_stage s = some "high_risk" := by
  unfold normalize_stage
  simp only []
  split_ifs <;> simp

theorem matchTreatmentKey_cases (tl key : String) (h : matchTreatmentKey tl = some key) :
    key = "chemotherapy" ∨ key = "radiation therapy" ∨ key = "surgery" ∨
    key = "immunotherapy" ∨ key = "targeted therapy" ∨ key = "hormonal therapy" ∨
    key = "radiofrequency ablation" ∨ key = "stem cell transplant" ∨
    key = "cryotherapy" ∨ key = "active surveillance" ∨ key = "photodynamic therapy" := by
  have hmem := List.mem_of_find?_eq_some h
  simpa [TREATMENT_DATABASE] using hmem

theorem analyze_treatment_cases (s t : String) :
    (is_valid_cancer_input s = false ∧ analyze_treatment s t = invalid_symptoms_result) ∨
    (is_valid_treatment t = false ∧ analyze_treatment s t = invalid_treatment_result) ∨
    (normalize_cancer_type s = Option.none ∧
      analyze_treatment s t = unknown_cancer_type_result) ∨
    analyze_treatment s t = guidelines_unavailable_result ∨
    (∃ ct, normalize_cancer_type s = some ct ∧ normalize_stage s = Option.none ∧
      analyze_treatment s t = stage_missing_result (pyGet ONCOLOGY_GUIDELINES ct)) ∨
    (∃ ct st, normalize_cancer_type s = some ct ∧ normalize_stage s = some st ∧
      pyTruthy (pyGet (pyGet ONCOLOGY_GUIDELINES ct) st) = false ∧
      analyze_treatment s t = stage_not_found_result st) ∨
    (∃ ct st, normalize_cancer_type s = some ct ∧ normalize_stage s = some st ∧
      is_valid_cancer_input s = true ∧ is_valid_treatment t = true ∧
      pyTruthy (pyGet (pyGet ONCOLOGY_GUIDELINES ct) st) = true ∧
      analyze_treatment s t =
        found_result s t (pyGet ONCOLOGY_GUIDELINES ct) st
          (pyGet (pyGet ONCOLOGY_GUIDELINES ct) st)) := by
  cases hv : is_valid_cancer_input s with
  | false => exact Or.inl ⟨rfl, by simp [analyze_treatment, hv]⟩
  | true =>
  cases hvt : is_valid_treatment t with
  | false => exact Or.inr (Or.inl ⟨rfl, by simp [analyze_treatment, hv, hvt]⟩)
  | true =>
  cases hct : normalize_cancer_type s with
  | none => exact Or.inr (Or.inr (Or.inl ⟨rfl, by simp [analyze_treatment, hv, hvt, hct]⟩))
  | some ct =>
  cases hgd : pyTruthy (pyGet ONCOLOGY_GUIDELINES ct) with
  | false =>
    exact Or.inr (Or.inr (Or.inr (Or.inl (by simp [analyze_treatment, hv, hvt, hct, hgd]))))
  | true =>
  cases hst : normalize_stage s with
  | none =>
    exact Or.inr (Or.inr (Or.inr (Or.inr (Or.inl
      ⟨ct, rfl, rfl, by simp [analyze_treatment, hv, hvt, hct, hgd, hst]⟩))))
  | some st =>
  cases hsg : pyTruthy (pyGet (pyGet ONCOLOGY_GUIDELINES ct) st) with
  | false =>
    exact Or.inr (Or.inr (Or.inr (Or.inr (Or.inr (Or.inl
      ⟨ct, st, rfl, rfl, hsg, by simp [analyze_treatment, hv, hvt, hct, hgd, hst, hsg]⟩)))))
  | true =>
    exact Or.inr (Or.inr (Or.inr (Or.inr (Or.inr (Or.inr
      ⟨ct, st, rfl, rfl, rfl, rfl, hsg,
        by simp [analyze_treatment, hv, hvt, hct, hgd, hst, hsg]⟩)))))

theorem analyze_treatment_rule_based_cases (s t : String) :
    (is_valid_cancer_input s = false ∧
      analyze_treatment_rule_based s t = rb_invalid_symptoms_result) ∨
    (is_valid_treatment t = false ∧
      analyze_treatment_rule_based s t = rb_invalid_treatment_result) ∨
    (matchTreatmentKey (pyLower t) = Option.none ∧
      analyze_treatment_rule_based s t = rb_not_found_result) ∨
    (∃ key, matchTreatmentKey (pyLower t) = some key ∧
      analyze_treatment_rule_based s t = rb_found_result s t key) := by
  cases hv : is_valid_cancer_input s with
  | false => exact Or.inl ⟨rfl, by simp [analyze_treatment_rule_based, hv]⟩
  | true =>
  cases hvt : is_valid_treatment t with
  | false => exact Or.inr (Or.inl ⟨rfl, by simp [analyze_treatment_rule_based, hv, hvt]⟩)
  | true =>
  cases hk : matchTreatmentKey (pyLower t) with
  | none =>
    exact Or.inr (Or.inr (Or.inl ⟨rfl, by simp [analyze_treatment_rule_based, hv, hvt, hk]⟩))
  | some key =>
    exact Or.inr (Or.inr (Or.inr
      ⟨key, rfl, by simp [analyze_treatment_rule_based, hv, hvt, hk]⟩))

/-! ## Field lemmas for the result dictionaries -/

theorem invalid_symptoms_result_status :
    pyStrOf (pyGet invalid_symptoms_result "status") = "incomplete" := rfl

theorem invalid_treatment_result_status :
    pyStrOf (pyGet invalid_treatment_result "status") = "incomplete" := rfl

theorem unknown_cancer_type_result_status :
    pyStrOf (pyGet unknown_cancer_type_result "status") = "incomplete" := rfl

theorem guidelines_unavailable_result_status :
    pyStrOf (pyGet guidelines_unavailable_result "status") = "not_found" := rfl

theorem rb_invalid_symptoms_result_status :
    pyStrOf (pyGet rb_invalid_symptoms_result "status") = "incomplete" := rfl

theorem rb_invalid_treatment_result_status :
    pyStrOf (pyGet rb_invalid_treatment_result "status") = "incomplete" := rfl

theorem rb_not_found_result_status :
    pyStrOf (pyGet rb_not_found_result "status") = "not_found" := rfl

theorem combined_both_failed_result_status :
    pyStrOf (pyGet combined_both_failed_result "status") = "not_found" := rfl

theorem stage_missing_result_status (gd : PyVal) :
    pyStrOf (pyGet (stage_missing_result gd) "status") = "incomplete" := by
  simp [stage_missing_result, pyGet, pyGetD, lookupKV, pyStrOf]

theorem stage_not_found_result_status (st : String) :
    pyStrOf (pyGet (stage_not_found_result st) "status") = "not_found" := by
  simp [stage_not_found_result, pyGet, pyGetD, lookupKV, pyStrOf]

theorem found_result_status (s t : String) (gd : PyVal) (st : String) (sg : PyVal) :
    pyStrOf (pyGet (found_result s t gd st sg) "status") = "found" := by
  simp [found_result, pyGet, pyGetD, lookupKV, pyStrOf]

theorem found_result_alignment (s t : String) (gd : PyVal) (st : String) (sg : PyVal) :
    pyLookup (found_result s t gd st sg) "alignment" =
      some (.str (if check_treatment_alignment (pyLower t) sg then "Aligned with Guidelines"
        else "Requires Verification")) := by
  simp [found_result, pyLookup, lookupKV]

theorem found_result_standard (s t : String) (gd : PyVal) (st : String) (sg : PyVal) :
    pyLookup (found_result s t gd st sg) "standard_treatment" =
      some (pyGetD sg "standard_treatment" (.str "N/A")) := by
  simp [found_result, pyLookup, lookupKV]

theorem found_result_survival (s t : String) (gd : PyVal) (st : String) (sg : PyVal) :
    pyLookup (found_result s t gd st sg) "survival_rate" =
      some (pyGetD sg "survival_rate" (.str "N/A")) := by
  simp [found_result, pyLookup, lookupKV]

theorem found_result_recovery_time (s t : String) (gd : PyVal) (st : String) (sg : PyVal) :
    pyLookup (found_result s t gd st sg) "recovery_time" =
      some (pyGetD sg "recovery" (.str "N/A")) := by
  simp [found_result, pyLookup, lookupKV]

theorem found_result_no_recovery (s t : String) (gd : PyVal) (st : String) (sg : PyVal) :
    pyLookup (found_result s t gd st sg) "recovery" = Option.none := by
  simp [found_result, pyLookup, lookupKV]

theorem found_result_potential_risks (s t : String) (gd : PyVal) (st : String) (sg : PyVal) :
    pyLookup (found_result s t gd st sg) "potential_risks" =
      some (.list ((get_treatment_risks (pyLower t)).map PyVal.str)) := by
  simp [found_result, pyLookup, lookupKV]

theorem rb_found_result_status (s t key : String) :
    pyStrOf (pyGet (rb_found_result s t key) "status") = "found" := by
  simp [rb_found_result, pyGet, pyGetD, lookupKV, pyStrOf]

theorem rb_found_result_appropriateness (s t key : String) :
    pyLookup (rb_found_result s t key) "appropriateness" =
      some (.str (if ((pyStrListOf (pyGet (pyGet (.dict TREATMENT_DATABASE) key) "indications")).filter
          fun ind => pyIn ind (pyLower s)) ≠ [] then "Appropriate"
        else "Requires Verification")) := by
  simp [rb_found_result, pyLookup, lookupKV]

theorem rb_found_result_treatment_name (s t key : String) :
    pyLookup (rb_found_result s t key) "treatment_name" = some (.str (pyTitle key)) := by
  simp [rb_found_result, pyLookup, lookupKV]

theorem rb_found_result_survival (s t key : String) :
    pyLookup (rb_found_result s t key) "survival_rate" =
      some (pyGet (pyGet (.dict TREATMENT_DATABASE) key) "survival_rate") := by
  simp [rb_found_result, pyLookup, lookupKV]

theorem rb_found_result_recovery_time (s t key : String) :
    pyLookup (rb_found_result s t key) "recovery_time" =
      some (pyGet (pyGet (.dict TREATMENT_DATABASE) key) "recovery_time") := by
  simp [rb_found_result, pyLookup, lookupKV]

theorem rb_found_result_risks (s t key : String) :
    pyLookup (rb_found_result s t key) "risks" =
      some (pyGet (pyGet (.dict TREATMENT_DATABASE) key) "risks") := by
  simp [rb_found_result, pyLookup, lookupKV]

theorem combined_gf_status (t : String) (gr rb : PyVal) :
    pyStrOf (pyGet (combined_guideline_found t gr rb) "status") = "found" := by
  simp only [combined_guideline_found]
  split
  · simp only [pyGet, pyGetD]
    rw [lookupKV_pySet_ne (by decide), lookupKV_pySet_ne (by decide),
      lookupKV_pySet_ne (by decide)]
    simp [lookupKV, pyStrOf]
  · simp [pyGet, pyGetD, lookupKV, pyStrOf]

theorem combined_gf_survival (t : String) (gr rb : PyVal) :
    pyLookup (combined_guideline_found t gr rb) "survival_rate" =
      some (pyGet gr "survival_rate") := by
  simp only [combined_guideline_found]
  split
  · simp only [pyLookup]
    rw [lookupKV_pySet_ne (by decide), lookupKV_pySet_ne (by decide),
      lookupKV_pySet_ne (by decide)]
    simp [lookupKV]
  · simp [pyLookup, lookupKV]

theorem combined_gf_recovery_time (t : String) (gr rb : PyVal) :
    pyLookup (combined_guideline_found t gr rb) "recovery_time" =
      some (pyGetD gr "recovery" (.str "N/A")) := by
  simp only [combined_guideline_found]
  split
  · simp only [pyLookup]
    rw [lookupKV_pySet_ne (by decide), lookupKV_pySet_ne (by decide),
      lookupKV_pySet_ne (by decide)]
    simp [lookupKV]
  · simp [pyLookup, lookupKV]

theorem combined_gf_risks (t : String) (gr rb : PyVal)
    (h : pyStrOf (pyGet rb "status") = "found") :
    pyLookup (combined_guideline_found t gr rb) "risks" =
      some (.list ((pyListSet
        (pyStrListOf (pyGetD rb "risks" (.list [])) ++
          pyStrListOf (pyGetD gr "potential_risks" (.list [])))).map PyVal.str)) := by
  simp [combined_guideline_found, h, pyLookup, lookupKV_pySet_self]

/-! ## Alignment characterization -/

/-- The alignment condition exactly as the specification words it: some
whitespace token of the (lowered) treatment text occurs as a substring
of the lowered standard-treatment text, the lowered adjuvant-therapy
text, or one of the lowered alternative-treatment texts. -/
def alignmentTokenCondition (treatment_lower : String) (stage_guideline : PyVal) : Prop :=
  ∃ tok ∈ pySplit treatment_lower,
    pyIn tok (pyLower (pyStr (pyGetD stage_guideline "standard_treatment" (.str "")))) = true ∨
    pyIn tok (pyLower (pyStr (pyGetD stage_guideline "adjuvant_therapy" (.str "")))) = true ∨
    ∃ alt ∈ alignAlternatives stage_guideline, pyIn tok (pyLower (pyStr alt)) = true

theorem check_alignment_iff (tl : String) (sg : PyVal) :
    check_treatment_alignment tl sg = true ↔ alignmentTokenCondition tl sg := by
  simp only [check_treatment_alignment, alignmentTokenCondition, List.any_eq_true,
    List.mem_append, List.mem_cons, List.not_mem_nil, or_false, List.mem_map]
  constructor
  · rintro ⟨gt, hgt, kw, hkw, hin⟩
    rcases hgt with (rfl | rfl) | ⟨alt, halt, rfl⟩
    · exact ⟨kw, hkw, Or.inl hin⟩
    · exact ⟨kw, hkw, Or.inr (Or.inl hin)⟩
    · exact ⟨kw, hkw, Or.inr (Or.inr ⟨alt, halt, hin⟩)⟩
  · rintro ⟨kw, hkw, hin | hin | ⟨alt, halt, hin⟩⟩
    · exact ⟨_, Or.inl (Or.inl rfl), kw, hkw, hin⟩
    · exact ⟨_, Or.inl (Or.inr rfl), kw, hkw, hin⟩
    · exact ⟨_, Or.inr ⟨alt, halt, rfl⟩, kw, hkw, hin⟩

theorem check_alignment_of_empty (tl : String) (sg : PyVal)
    (hstd : pyGetD sg "standard_treatment" (.str "") = .str "")
    (hadj : pyGetD sg "adjuvant_therapy" (.str "") = .str "")
    (halt : alignAlternatives sg = []) :
    check_treatment_alignment tl sg = false := by
  have hanyempty : ((pySplit tl).any fun kw => pyIn kw "") = false := by
    rw [List.any_eq_false]
    intro w hw
    simp [pyIn_empty_hay w (pySplit_ne_empty tl w hw)]
  simp only [check_treatment_alignment, hstd, hadj, halt, List.map_nil, List.append_nil]
  have hempty : pyLower (pyStr (PyVal.str "")) = "" := rfl
  rw [hempty]
  simp [List.any_cons, List.any_nil, hanyempty]

/-! ## Status characterizations -/

theorem analyze_status_found_eq (s t : String)
    (h : pyStrOf (pyGet (analyze_treatment s t) "status") = "found") :
    ∃ ct st, normalize_cancer_type s = some ct ∧ normalize_stage s = some st ∧
      is_valid_cancer_input s = true ∧ is_valid_treatment t = true ∧
      pyTruthy (pyGet (pyGet ONCOLOGY_GUIDELINES ct) st) = true ∧
      analyze_treatment s t =
        found_result s t (pyGet ONCOLOGY_GUIDELINES ct) st
          (pyGet (pyGet ONCOLOGY_GUIDELINES ct) st) := by
  rcases analyze_treatment_cases s t with
    ⟨_, heq⟩ | ⟨_, heq⟩ | ⟨_, heq⟩ | heq | ⟨ct, _, _, heq⟩ | ⟨ct, st, _, _, _, heq⟩ | hfound
  · rw [heq] at h; exact absurd h (by decide)
  · rw [heq] at h; exact absurd h (by decide)
  · rw [heq] at h; exact absurd h (by decide)
  · rw [heq] at h; exact absurd h (by decide)
  · rw [heq, stage_missing_result_status] at h; exact absurd h (by decide)
  · rw [heq, stage_not_found_result_status] at h; exact absurd h (by decide)
  · exact hfound

theorem rb_status_found_eq (s t : String)
    (h : pyStrOf (pyGet (analyze_treatment_rule_based s t) "status") = "found") :
    ∃ key, matchTreatmentKey (pyLower t) = some key ∧
      analyze_treatment_rule_based s t = rb_found_result s t key := by
  rcases analyze_treatment_rule_based_cases s t with
    ⟨_, heq⟩ | ⟨_, heq⟩ | ⟨_, heq⟩ | ⟨key, hk, heq⟩
  · rw [heq] at h; exact absurd h (by decide)
  · rw [heq] at h; exact absurd h (by decide)
  · rw [heq] at h; exact absurd h (by decide)
  · exact ⟨key, hk, heq⟩

/-! ## Claim C2: input validation characterization -/

/-- Modelled from the claim wording of the specification: a meaningful
word is "suspect" when it is longer than 4 characters and either its
character diversity is below 0.4 or it contains a keyboard-row pattern
(each word counted at most once). -/
def claimSuspectWord (w : String) : Bool :=
  w.length > 4 && (5 * uniqueCharsCount w < 2 * w.length || has_keyboard_mashing w)

/-- Modelled from the claim wording of the specification: the number of
suspect words of a word list, each word counted at most once. -/
def claimSuspectCount (ws : List String) : Nat := (ws.filter claimSuspectWord).length

/-- C2 counterexample: on the input "cancer tumor asdfasdfasdf" all of
the claim hypotheses hold and only 1 of the 3 meaningful words is
suspect in the claim sense (fraction 1/3 ≤ 0.5), yet
`is_valid_cancer_input` rejects the input, because the source counts the
word `asdfasdfasdf` twice — once for low character diversity and once
for keyboard mashing. -/
theorem C2_counterexample :
    is_valid_cancer_input "cancer tumor asdfasdfasdf" = false ∧
    5 ≤ (pyStrip (pyLower "cancer tumor asdfasdfasdf")).length ∧
    2 ≤ (meaningfulWords "cancer tumor asdfasdfasdf").length ∧
    (CANCER_KEYWORDS.any fun keyword =>
      pyIn keyword (pyStrip (pyLower "cancer tumor asdfasdfasdf"))) = true ∧
    2 * claimSuspectCount (meaningfulWords "cancer tumor asdfasdfasdf") ≤
      (meaningfulWords "cancer tumor asdfasdfasdf").length := by
  refine ⟨by decide, by decide, by decide, by decide, by decide⟩

/-- C2 (amended): for every symptom string whose lowered, stripped form
has length at least 5, with at least 2 meaningful words, containing a
cancer keyword, `is_valid_cancer_input` returns false exactly when the
gibberish count — in which a word longer than 4 characters contributes 1
for diversity below 0.4 and additionally 1 for a keyboard-row pattern,
so a word may count twice — exceeds half the number of meaningful
words. -/
theorem C2_thm (symptoms : String)
    (h1 : 5 ≤ (pyStrip (pyLower symptoms)).length)
    (h2 : 2 ≤ (meaningfulWords symptoms).length)
    (h3 : (CANCER_KEYWORDS.any fun keyword =>
      pyIn keyword (pyStrip (pyLower symptoms))) = true) :
    is_valid_cancer_input symptoms = false ↔
      (meaningfulWords symptoms).length <
        2 * gibberishCount (meaningfulWords symptoms) := by
  simp only [is_valid_cancer_input]
  rw [if_neg (by omega), if_neg (by omega)]
  by_cases hg : (meaningfulWords symptoms).length > 0 ∧
      2 * gibberishCount (meaningfulWords symptoms) > (meaningfulWords symptoms).length
  · rw [if_pos hg]
    simp only [eq_self_iff_true, true_iff]
    omega
  · rw [if_neg hg]
    obtain ⟨k, hkmem, hkin⟩ : ∃ k ∈ CANCER_KEYWORDS,
        pyIn k (pyStrip (pyLower symptoms)) = true := by
      simpa [List.any_eq_true] using h3
    have hmed : 0 < (CANCER_KEYWORDS.filter fun keyword =>
        pyIn keyword (pyStrip (pyLower symptoms))).length := by
      refine List.length_pos.mpr fun hnil => ?_
      rw [List.filter_eq_nil_iff] at hnil
      exact absurd hkin (by simpa using hnil k hkmem)
    rw [h3]
    simp only [Bool.not_true, Bool.false_eq_true, if_false]
    rw [if_neg (by omega)]
    constructor
    · intro hcontra
      exact absurd hcontra (by decide)
    · intro hlt
      exact absurd ⟨by omega, by omega⟩ hg

/-- C2 witness: the amended characterization at the concrete input
"cancer tumor asdfasdfasdf" (3 meaningful words, gibberish count 2). -/
theorem C2_witness :
    5 ≤ (pyStrip (pyLower "cancer tumor asdfasdfasdf")).length ∧
    2 ≤ (meaningfulWords "cancer tumor asdfasdfasdf").length ∧
    (CANCER_KEYWORDS.any fun keyword =>
      pyIn keyword (pyStrip (pyLower "cancer tumor asdfasdfasdf"))) = true ∧
    (is_valid_cancer_input "cancer tumor asdfasdfasdf" = false ↔
      (meaningfulWords "cancer tumor asdfasdfasdf").length <
        2 * gibberishCount (meaningfulWords "cancer tumor asdfasdfasdf")) :=
  ⟨by decide, by decide, by decide,
    C2_thm "cancer tumor asdfasdfasdf" (by decide) (by decide) (by decide)⟩

/-! ## Claim C6: stage-IV priority in stage normalization -/

/-- C6: for every string whose lower-casing contains the substring
"stage iv", `normalize_stage` returns `stage_iv` — the stage-IV branch
is tested first, so this holds even when "stage i" also occurs as a
substring. -/
theorem C6_thm (s : String) (h : pyIn "stage iv" (pyLower s) = true) :
    normalize_stage s = some "stage_iv" := by
  simp only [normalize_stage]
  rw [h]
  simp

/-- C6 witness: a string containing both "stage iv" and "stage i" as
substrings normalizes to stage IV. -/
theorem C6_witness :
    pyIn "stage iv" (pyLower "stage iv and stage i") = true ∧
    pyIn "stage i" (pyLower "stage iv and stage i") = true ∧
    normalize_stage "stage iv and stage i" = some "stage_iv" :=
  ⟨by decide, by decide, C6_thm "stage iv and stage i" (by decide)⟩

/-! ## Claim C1: which guideline metrics the combined result carries -/

/-- C1 (code bug evaluation): on the found input
("Stage I breast cancer, HER2 positive", "surgery") the guideline result
carries recovery time "6-12 months", and the combined result carries the
guideline survival rate and estimated cost, but its recovery time is
"N/A": `analyze_treatment_combined` reads the key `recovery`, which the
guideline result does not contain (it stores `recovery_time`), so the
guideline recovery time is never carried over. -/
theorem C1_thm :
    pyStrOf (pyGet (analyze_treatment "Stage I breast cancer, HER2 positive" "surgery")
      "status") = "found" ∧
    pyStrOf (pyGet (analyze_treatment "Stage I breast cancer, HER2 positive" "surgery")
      "recovery_time") = "6-12 months" ∧
    pyStrOf (pyGet (analyze_treatment "Stage I breast cancer, HER2 positive" "surgery")
      "survival_rate") = "95-100% 5-year" ∧
    pyStrOf (pyGet (analyze_treatment "Stage I breast cancer, HER2 positive" "surgery")
      "estimated_cost") = "₹5,00,000-₹10,00,000" ∧
    pyStrOf (pyGet (analyze_treatment_combined "Stage I breast cancer, HER2 positive" "surgery")
      "status") = "found" ∧
    pyStrOf (pyGet (analyze_treatment_combined "Stage I breast cancer, HER2 positive" "surgery")
      "survival_rate") = "95-100% 5-year" ∧
    pyStrOf (pyGet (analyze_treatment_combined "Stage I breast cancer, HER2 positive" "surgery")
      "estimated_cost") = "₹5,00,000-₹10,00,000" ∧
    pyStrOf (pyGet (analyze_treatment_combined "Stage I breast cancer, HER2 positive" "surgery")
      "recovery_time") = "N/A" := by
  refine ⟨rfl, rfl, rfl, rfl, rfl, rfl, rfl, rfl⟩

theorem pyGet_eq_lookup (v : PyVal) (k : String) :
    pyGet v k = (pyLookup v k).getD PyVal.none := by
  cases v <;> rfl

/-! ## Claim C8: totality and status safety of the combined analysis -/

/-- C8: for every pair of input strings the combined analysis — a total
function in this embedding, with the division guards modelled exactly —
returns a mapping whose status field is one of incomplete, not_found and
found. -/
theorem C8_thm (s t : String) :
    pyStrOf (pyGet (analyze_treatment_combined s t) "status") = "incomplete" ∨
    pyStrOf (pyGet (analyze_treatment_combined s t) "status") = "not_found" ∨
    pyStrOf (pyGet (analyze_treatment_combined s t) "status") = "found" := by
  cases hbeq : pyStrOf (pyGet (analyze_treatment s t) "status") == "found" with
  | true =>
    refine Or.inr (Or.inr ?_)
    simp only [analyze_treatment_combined]
    rw [if_pos hbeq]
    exact combined_gf_status _ _ _
  | false =>
    cases hbeq2 : pyStrOf (pyGet (analyze_treatment s t) "status") == "incomplete" with
    | true =>
      cases hbeq3 : pyStrOf (pyGet (analyze_treatment_rule_based s t) "status") == "found" with
      | true =>
        refine Or.inr (Or.inr ?_)
        simp only [analyze_treatment_combined]
        rw [if_neg (by simp [hbeq]), if_pos hbeq2, if_pos hbeq3]
        have hrb : pyStrOf (pyGet (analyze_treatment_rule_based s t) "status") = "found" := by
          rwa [beq_iff_eq] at hbeq3
        simp only [pyGet, pyGetD]
        rw [lookupKV_pySet_ne (by decide), lookupKV_pySet_ne (by decide),
          lookupKV_pySet_ne (by decide), lookupKV_pySet_ne (by decide),
          lookupKV_pySet_ne (by decide), lookupKV_pySet_ne (by decide)]
        cases hrbv : analyze_treatment_rule_based s t with
        | dict kvs =>
          rw [hrbv] at hrb
          simpa [pyGet, pyGetD, pyDictOf] using hrb
        | str a => rw [hrbv] at hrb; simp [pyGet, pyGetD, pyStrOf] at hrb
        | bool b => rw [hrbv] at hrb; simp [pyGet, pyGetD, pyStrOf] at hrb
        | none => rw [hrbv] at hrb; simp [pyGet, pyGetD, pyStrOf] at hrb
        | list l => rw [hrbv] at hrb; simp [pyGet, pyGetD, pyStrOf] at hrb
      | false =>
        refine Or.inl ?_
        simp only [analyze_treatment_combined]
        rw [if_neg (by simp [hbeq]), if_pos hbeq2, if_neg (by simp [hbeq3])]
        rwa [beq_iff_eq] at hbeq2
    | false =>
      cases hbeq3 : pyStrOf (pyGet (analyze_treatment_rule_based s t) "status") == "found" with
      | true =>
        refine Or.inr (Or.inr ?_)
        simp only [analyze_treatment_combined]
        rw [if_neg (by simp [hbeq]), if_neg (by simp [hbeq2]), if_pos hbeq3]
        have hrb : pyStrOf (pyGet (analyze_treatment_rule_based s t) "status") = "found" := by
          rwa [beq_iff_eq] at hbeq3
        simp only [pyGet, pyGetD]
        rw [lookupKV_pySet_ne (by decide), lookupKV_pySet_ne (by decide),
          lookupKV_pySet_ne (by decide)]
        cases hrbv : analyze_treatment_rule_based s t with
        | dict kvs =>
          rw [hrbv] at hrb
          simpa [pyGet, pyGetD, pyDictOf] using hrb
        | str a => rw [hrbv] at hrb; simp [pyGet, pyGetD, pyStrOf] at hrb
        | bool b => rw [hrbv] at hrb; simp [pyGet, pyGetD, pyStrOf] at hrb
        | none => rw [hrbv] at hrb; simp [pyGet, pyGetD, pyStrOf] at hrb
        | list l => rw [hrbv] at hrb; simp [pyGet, pyGetD, pyStrOf] at hrb
      | false =>
        refine Or.inr (Or.inl ?_)
        simp only [analyze_treatment_combined]
        rw [if_neg (by simp [hbeq]), if_neg (by simp [hbeq2]), if_neg (by simp [hbeq3])]
        exact combined_both_failed_result_status

/-! ## Claim C10: prostate stage-IV lookup gap -/

/-- C10: on every valid input pair whose symptoms normalize to prostate
cancer and to stage `stage_iv` (the normalizer maps metastatic wording
to `stage_iv`), the guideline analysis returns `not_found`, because the
prostate table keys its metastatic entry as `metastatic` and has no
`stage_iv` key. -/
theorem C10_thm (s t : String)
    (hv : is_valid_cancer_input s = true) (hvt : is_valid_treatment t = true)
    (hct : normalize_cancer_type s = some "prostate_cancer")
    (hst : normalize_stage s = some "stage_iv") :
    analyze_treatment s t = stage_not_found_result "stage_iv" ∧
    pyStrOf (pyGet (analyze_treatment s t) "status") = "not_found" := by
  have hgd : pyTruthy (pyGet ONCOLOGY_GUIDELINES "prostate_cancer") = true := rfl
  have hsg : pyTruthy (pyGet (pyGet ONCOLOGY_GUIDELINES "prostate_cancer") "stage_iv") = false :=
    rfl
  have heq : analyze_treatment s t = stage_not_found_result "stage_iv" := by
    simp [analyze_treatment, hv, hvt, hct, hst, hgd, hsg]
  exact ⟨heq, by rw [heq]; exact stage_not_found_result_status _⟩

/-- C10 witness: "metastatic prostate cancer" with treatment
"chemotherapy" hits the missing `stage_iv` key of the prostate table. -/
theorem C10_witness :
    is_valid_cancer_input "metastatic prostate cancer" = true ∧
    is_valid_treatment "chemotherapy" = true ∧
    normalize_cancer_type "metastatic prostate cancer" = some "prostate_cancer" ∧
    normalize_stage "metastatic prostate cancer" = some "stage_iv" ∧
    (analyze_treatment "metastatic prostate cancer" "chemotherapy" =
      stage_not_found_result "stage_iv" ∧
     pyStrOf (pyGet (analyze_treatment "metastatic prostate cancer" "chemotherapy")
       "status") = "not_found") :=
  ⟨by decide, by decide, by decide, by decide,
    C10_thm "metastatic prostate cancer" "chemotherapy" (by decide) (by decide) (by decide)
      (by decide)⟩

/-! ## Claim C9: stage-IV entries of the three site tables cannot align -/

/-- C9: on every valid input pair resolving to breast, lung or
colorectal cancer at stage `stage_iv`, the guideline analysis returns
`found` with alignment "Requires Verification" and standard treatment
"N/A", whatever the treatment text: those stage-IV entries define no
standard-treatment, alternatives or adjuvant-therapy field for the
alignment check to match against. -/
theorem C9_thm (s t ct : String)
    (hv : is_valid_cancer_input s = true) (hvt : is_valid_treatment t = true)
    (hct : normalize_cancer_type s = some ct)
    (hmem : ct = "breast_cancer" ∨ ct = "lung_cancer" ∨ ct = "colorectal_cancer")
    (hst : normalize_stage s = some "stage_iv") :
    pyStrOf (pyGet (analyze_treatment s t) "status") = "found" ∧
    pyStrOf (pyGet (analyze_treatment s t) "alignment") = "Requires Verification" ∧
    pyStrOf (pyGet (analyze_treatment s t) "standard_treatment") = "N/A" := by
  have main : ∀ ct0 : String,
      normalize_cancer_type s = some ct0 →
      pyTruthy (pyGet ONCOLOGY_GUIDELINES ct0) = true →
      pyTruthy (pyGet (pyGet ONCOLOGY_GUIDELINES ct0) "stage_iv") = true →
      pyGetD (pyGet (pyGet ONCOLOGY_GUIDELINES ct0) "stage_iv") "standard_treatment"
        (.str "") = .str "" →
      pyGetD (pyGet (pyGet ONCOLOGY_GUIDELINES ct0) "stage_iv") "adjuvant_therapy"
        (.str "") = .str "" →
      alignAlternatives (pyGet (pyGet ONCOLOGY_GUIDELINES ct0) "stage_iv") = [] →
      pyGetD (pyGet (pyGet ONCOLOGY_GUIDELINES ct0) "stage_iv") "standard_treatment"
        (.str "N/A") = .str "N/A" →
      pyStrOf (pyGet (analyze_treatment s t) "status") = "found" ∧
      pyStrOf (pyGet (analyze_treatment s t) "alignment") = "Requires Verification" ∧
      pyStrOf (pyGet (analyze_treatment s t) "standard_treatment") = "N/A" := by
    intro ct0 hct0 hgd hsg hstd hadj halts hna
    have heq : analyze_treatment s t =
        found_result s t (pyGet ONCOLOGY_GUIDELINES ct0) "stage_iv"
          (pyGet (pyGet ONCOLOGY_GUIDELINES ct0) "stage_iv") := by
      simp [analyze_treatment, hv, hvt, hct0, hst, hgd, hsg]
    have hchk := check_alignment_of_empty (pyLower t) _ hstd hadj halts
    refine ⟨?_, ?_, ?_⟩
    · rw [heq]; exact found_result_status _ _ _ _ _
    · rw [heq, pyGet_eq_lookup, found_result_alignment, hchk]
      rfl
    · rw [heq, pyGet_eq_lookup, found_result_standard, hna]
      rfl
  rcases hmem with rfl | rfl | rfl
  · exact main "breast_cancer" hct rfl rfl rfl rfl rfl rfl
  · exact main "lung_cancer" hct rfl rfl rfl rfl rfl rfl
  · exact main "colorectal_cancer" hct rfl rfl rfl rfl rfl rfl

/-- C9 witness: stage-IV breast cancer with treatment "chemotherapy". -/
theorem C9_witness :
    is_valid_cancer_input "stage iv breast cancer" = true ∧
    is_valid_treatment "chemotherapy" = true ∧
    normalize_cancer_type "stage iv breast cancer" = some "breast_cancer" ∧
    normalize_stage "stage iv breast cancer" = some "stage_iv" ∧
    (pyStrOf (pyGet (analyze_treatment "stage iv breast cancer" "chemotherapy") "status") =
      "found" ∧
     pyStrOf (pyGet (analyze_treatment "stage iv breast cancer" "chemotherapy")
       "alignment") = "Requires Verification" ∧
     pyStrOf (pyGet (analyze_treatment "stage iv breast cancer" "chemotherapy")
       "standard_treatment") = "N/A") :=
  ⟨by decide, by decide, by decide, by decide,
    C9_thm "stage iv breast cancer" "chemotherapy" "breast_cancer" (by decide) (by decide)
      (by decide) (Or.inl rfl) (by decide)⟩

theorem pyGetD_eq_lookup (v : PyVal) (k : String) (d : PyVal) :
    pyGetD v k d = (pyLookup v k).getD d := by
  cases v <;> rfl

theorem lookupKV_pyDictOf (v : PyVal) (k : String) :
    lookupKV (pyDictOf v) k = pyLookup v k := by
  cases v <;> rfl

theorem normalize_cancer_type_mem (s ct : String)
    (hct : normalize_cancer_type s = some ct) :
    ct = "breast_cancer" ∨ ct = "lung_cancer" ∨ ct = "colorectal_cancer" ∨
      ct = "prostate_cancer" := by
  rcases normalize_cancer_type_cases s with h | h | h | h | h
  · rw [hct] at h; exact absurd h (by simp)
  · exact Or.inl (Option.some.inj (hct.symm.trans h))
  · exact Or.inr (Or.inl (Option.some.inj (hct.symm.trans h)))
  · exact Or.inr (Or.inr (Or.inl (Option.some.inj (hct.symm.trans h))))
  · exact Or.inr (Or.inr (Or.inr (Option.some.inj (hct.symm.trans h))))

theorem normalize_stage_mem (s st : String) (hst : normalize_stage s = some st) :
    st = "stage_iv" ∨ st = "stage_iii" ∨ st = "stage_ii" ∨ st = "stage_i" ∨
      st = "stage_0" ∨ st = "low_risk" ∨ st = "intermediate_risk" ∨ st = "high_risk" := by
  rcases normalize_stage_cases s with h | h | h | h | h | h | h | h | h
  · rw [hst] at h; exact absurd h (by simp)
  · exact Or.inl (Option.some.inj (hst.symm.trans h))
  · exact Or.inr (Or.inl (Option.some.inj (hst.symm.trans h)))
  · exact Or.inr (Or.inr (Or.inl (Option.some.inj (hst.symm.trans h))))
  · exact Or.inr (Or.inr (Or.inr (Or.inl (Option.some.inj (hst.symm.trans h)))))
  · exact Or.inr (Or.inr (Or.inr (Or.inr (Or.inl (Option.some.inj (hst.symm.trans h))))))
  · exact Or.inr (Or.inr (Or.inr (Or.inr (Or.inr (Or.inl
      (Option.some.inj (hst.symm.trans h)))))))
  · exact Or.inr (Or.inr (Or.inr (Or.inr (Or.inr (Or.inr (Or.inl
      (Option.some.inj (hst.symm.trans h))))))))
  · exact Or.inr (Or.inr (Or.inr (Or.inr (Or.inr (Or.inr (Or.inr
      (Option.some.inj (hst.symm.trans h))))))))

/-- Every guideline stage entry whose lookup is truthy carries a
non-empty survival-rate string, or none at all (in which case the `N/A`
default applies): exhaustive check over the data tables. -/
theorem stage_survival_nonempty (ct st : String)
    (hct : ct = "breast_cancer" ∨ ct = "lung_cancer" ∨ ct = "colorectal_cancer" ∨
      ct = "prostate_cancer")
    (hst : st = "stage_iv" ∨ st = "stage_iii" ∨ st = "stage_ii" ∨ st = "stage_i" ∨
      st = "stage_0" ∨ st = "low_risk" ∨ st = "intermediate_risk" ∨ st = "high_risk")
    (hsg : pyTruthy (pyGet (pyGet ONCOLOGY_GUIDELINES ct) st) = true) :
    ∃ v, pyGetD (pyGet (pyGet ONCOLOGY_GUIDELINES ct) st) "survival_rate" (.str "N/A") =
        .str v ∧ v ≠ "" := by
  rcases hct with rfl | rfl | rfl | rfl <;>
    rcases hst with rfl | rfl | rfl | rfl | rfl | rfl | rfl | rfl <;>
      first
        | exact absurd hsg (by decide)
        | exact ⟨_, rfl, by decide⟩

/-- Every entry of the rule-based treatment database carries non-empty
survival-rate and recovery-time strings: exhaustive check. -/
theorem db_field_nonempty (key fld : String)
    (hkey : key = "chemotherapy" ∨ key = "radiation therapy" ∨ key = "surgery" ∨
      key = "immunotherapy" ∨ key = "targeted therapy" ∨ key = "hormonal therapy" ∨
      key = "radiofrequency ablation" ∨ key = "stem cell transplant" ∨
      key = "cryotherapy" ∨ key = "active surveillance" ∨ key = "photodynamic therapy")
    (hfld : fld = "survival_rate" ∨ fld = "recovery_time") :
    ∃ v, pyGet (pyGet (.dict TREATMENT_DATABASE) key) fld = .str v ∧ v ≠ "" := by
  rcases hfld with rfl | rfl <;>
    rcases hkey with rfl | rfl | rfl | rfl | rfl | rfl | rfl | rfl | rfl | rfl | rfl <;>
      exact ⟨_, rfl, by decide⟩

/-! ## Claim C5: rule-based appropriateness classification -/

/-- C5: whenever both validations pass and a treatment key is matched,
the rule-based analysis returns `found` and classifies the treatment as
"Appropriate" exactly when some indication of the matched treatment
occurs as a substring of the lowered symptom text (binary
classification); in particular ("breast cancer with tumor",
"chemotherapy") yields `found`, treatment name "Chemotherapy" and
appropriateness "Appropriate". -/
theorem C5_thm :
    (∀ s t key, is_valid_cancer_input s = true → is_valid_treatment t = true →
      matchTreatmentKey (pyLower t) = some key →
      pyStrOf (pyGet (analyze_treatment_rule_based s t) "status") = "found" ∧
      (pyStrOf (pyGet (analyze_treatment_rule_based s t) "appropriateness") = "Appropriate" ↔
        ∃ ind ∈ pyStrListOf (pyGet (pyGet (.dict TREATMENT_DATABASE) key) "indications"),
          pyIn ind (pyLower s) = true)) ∧
    pyStrOf (pyGet (analyze_treatment_rule_based "breast cancer with tumor" "chemotherapy")
      "status") = "found" ∧
    pyStrOf (pyGet (analyze_treatment_rule_based "breast cancer with tumor" "chemotherapy")
      "treatment_name") = "Chemotherapy" ∧
    pyStrOf (pyGet (analyze_treatment_rule_based "breast cancer with tumor" "chemotherapy")
      "appropriateness") = "Appropriate" := by
  refine ⟨?_, rfl, rfl, rfl⟩
  intro s t key hv hvt hk
  have heq : analyze_treatment_rule_based s t = rb_found_result s t key := by
    simp [analyze_treatment_rule_based, hv, hvt, hk]
  constructor
  · rw [heq]; exact rb_found_result_status _ _ _
  · rw [heq, pyGet_eq_lookup, rb_found_result_appropriateness]
    by_cases hne : ((pyStrListOf (pyGet (pyGet (.dict TREATMENT_DATABASE) key)
        "indications")).filter fun ind => pyIn ind (pyLower s)) ≠ []
    · rw [if_pos hne]
      simp only [Option.getD_some, pyStrOf, true_iff]
      obtain ⟨ind, hmem⟩ := List.exists_mem_of_ne_nil _ hne
      have hm := List.mem_filter.mp hmem
      exact ⟨ind, hm.1, hm.2⟩
    · rw [if_neg hne]
      simp only [Option.getD_some, pyStrOf]
      constructor
      · intro hcontra
        exact absurd hcontra (by decide)
      · rintro ⟨ind, hmem, hin⟩
        exact absurd (List.ne_nil_of_mem (List.mem_filter.mpr ⟨hmem, hin⟩)) hne

/-- C5 witness: the classification characterization instantiated at the
concrete input pair of the claim. -/
theorem C5_witness :
    is_valid_cancer_input "breast cancer with tumor" = true ∧
    is_valid_treatment "chemotherapy" = true ∧
    matchTreatmentKey (pyLower "chemotherapy") = some "chemotherapy" ∧
    (pyStrOf (pyGet (analyze_treatment_rule_based "breast cancer with tumor" "chemotherapy")
      "status") = "found" ∧
     (pyStrOf (pyGet (analyze_treatment_rule_based "breast cancer with tumor" "chemotherapy")
       "appropriateness") = "Appropriate" ↔
       ∃ ind ∈ pyStrListOf (pyGet (pyGet (.dict TREATMENT_DATABASE) "chemotherapy")
         "indications"),
         pyIn ind (pyLower "breast cancer with tumor") = true)) :=
  ⟨by decide, by decide, by decide,
    C5_thm.1 "breast cancer with tumor" "chemotherapy" "chemotherapy" (by decide) (by decide)
      (by decide)⟩

/-! ## Claim C4: guideline alignment characterization -/

/-- C4: on every `found` guideline result the alignment field is
"Aligned with Guidelines" exactly when some whitespace token of the
lowered treatment text occurs as a substring of the lowered standard
treatment, the lowered adjuvant-therapy text, or one of the lowered
alternative treatments of the resolved stage entry, and "Requires
Verification" otherwise; in particular
("Stage I breast cancer, HER2 positive", "surgery") yields `found`,
cancer type "Breast Cancer", stage "Stage I" and alignment
"Aligned with Guidelines". -/
theorem C4_thm :
    (∀ s t, pyStrOf (pyGet (analyze_treatment s t) "status") = "found" →
      (pyStrOf (pyGet (analyze_treatment s t) "alignment") = "Aligned with Guidelines" ↔
        ∃ ct st, normalize_cancer_type s = some ct ∧ normalize_stage s = some st ∧
          alignmentTokenCondition (pyLower t) (pyGet (pyGet ONCOLOGY_GUIDELINES ct) st))) ∧
    pyStrOf (pyGet (analyze_treatment "Stage I breast cancer, HER2 positive" "surgery")
      "status") = "found" ∧
    pyStrOf (pyGet (analyze_treatment "Stage I breast cancer, HER2 positive" "surgery")
      "cancer_type") = "Breast Cancer" ∧
    pyStrOf (pyGet (analyze_treatment "Stage I breast cancer, HER2 positive" "surgery")
      "stage") = "Stage I" ∧
    pyStrOf (pyGet (analyze_treatment "Stage I breast cancer, HER2 positive" "surgery")
      "alignment") = "Aligned with Guidelines" := by
  refine ⟨?_, rfl, rfl, rfl, rfl⟩
  intro s t hfound
  obtain ⟨ct, st, hct, hst, hv, hvt, hsg, heq⟩ := analyze_status_found_eq s t hfound
  rw [heq, pyGet_eq_lookup, found_result_alignment]
  by_cases hchk : check_treatment_alignment (pyLower t)
      (pyGet (pyGet ONCOLOGY_GUIDELINES ct) st) = true
  · rw [if_pos hchk]
    simp only [Option.getD_some, pyStrOf, true_iff]
    exact ⟨ct, st, hct, hst, (check_alignment_iff _ _).1 hchk⟩
  · rw [if_neg hchk]
    simp only [Option.getD_some, pyStrOf]
    constructor
    · intro hcontra
      exact absurd hcontra (by decide)
    · rintro ⟨ct2, st2, hct2, hst2, hcond⟩
      obtain rfl : ct2 = ct := Option.some.inj (hct2.symm.trans hct)
      obtain rfl : st2 = st := Option.some.inj (hst2.symm.trans hst)
      exact absurd ((check_alignment_iff _ _).2 hcond) hchk

/-- C4 witness: the alignment characterization instantiated at the
concrete input pair of the claim. -/
theorem C4_witness :
    pyStrOf (pyGet (analyze_treatment "Stage I breast cancer, HER2 positive" "surgery")
      "status") = "found" ∧
    (pyStrOf (pyGet (analyze_treatment "Stage I breast cancer, HER2 positive" "surgery")
      "alignment") = "Aligned with Guidelines" ↔
      ∃ ct st, normalize_cancer_type "Stage I breast cancer, HER2 positive" = some ct ∧
        normalize_stage "Stage I breast cancer, HER2 positive" = some st ∧
        alignmentTokenCondition (pyLower "surgery")
          (pyGet (pyGet ONCOLOGY_GUIDELINES ct) st)) :=
  ⟨by decide, C4_thm.1 "Stage I breast cancer, HER2 positive" "surgery" (by decide)⟩

/-! ## Claim C3: the combined risk list is the deduplicated union -/

/-- C3: whenever both analyzers return `found`, the risk list of the
combined result is, as a set, the union of the rule-based risk list and
the guideline potential-risk list, with duplicates removed. -/
theorem C3_thm (s t : String)
    (hg : pyStrOf (pyGet (analyze_treatment s t) "status") = "found")
    (hr : pyStrOf (pyGet (analyze_treatment_rule_based s t) "status") = "found") :
    (∀ x : String,
      x ∈ pyStrListOf (pyGet (analyze_treatment_combined s t) "risks") ↔
        x ∈ pyStrListOf (pyGetD (analyze_treatment_rule_based s t) "risks" (.list [])) ∨
        x ∈ pyStrListOf (pyGetD (analyze_treatment s t) "potential_risks" (.list []))) ∧
    (pyStrListOf (pyGet (analyze_treatment_combined s t) "risks")).Nodup := by
  have hcomb : analyze_treatment_combined s t =
      combined_guideline_found t (analyze_treatment s t)
        (analyze_treatment_rule_based s t) := by
    simp only [analyze_treatment_combined]
    rw [if_pos (by rw [hg]; rfl)]
  rw [hcomb, pyGet_eq_lookup, combined_gf_risks _ _ _ hr]
  simp only [Option.getD_some, pyStrListOf_map_str]
  constructor
  · intro x
    rw [mem_pyListSet, List.mem_append]
  · exact nodup_pyListSet _

/-- C3 witness: the risk-union property at the concrete found-found
input pair ("Stage I breast cancer, HER2 positive", "surgery"). -/
theorem C3_witness :
    pyStrOf (pyGet (analyze_treatment "Stage I breast cancer, HER2 positive" "surgery")
      "status") = "found" ∧
    pyStrOf (pyGet (analyze_treatment_rule_based "Stage I breast cancer, HER2 positive"
      "surgery") "status") = "found" ∧
    ((∀ x : String,
      x ∈ pyStrListOf (pyGet
        (analyze_treatment_combined "Stage I breast cancer, HER2 positive" "surgery")
        "risks") ↔
        x ∈ pyStrListOf (pyGetD
          (analyze_treatment_rule_based "Stage I breast cancer, HER2 positive" "surgery")
          "risks" (.list [])) ∨
        x ∈ pyStrListOf (pyGetD
          (analyze_treatment "Stage I breast cancer, HER2 positive" "surgery")
          "potential_risks" (.list []))) ∧
     (pyStrListOf (pyGet
       (analyze_treatment_combined "Stage I breast cancer, HER2 positive" "surgery")
       "risks")).Nodup) :=
  ⟨by decide, by decide,
    C3_thm "Stage I breast cancer, HER2 positive" "surgery" (by decide) (by decide)⟩

/-! ## Claim C7: found results always carry survival and recovery fields -/

/-- C7: every `found` result of the combined analysis carries a present,
non-empty survival-rate field and a present, non-empty recovery-time
field (the fallback value "N/A" counts), whichever analyzer was the
primary source. -/
theorem C7_thm (s t : String)
    (hfound : pyStrOf (pyGet (analyze_treatment_combined s t) "status") = "found") :
    (∃ v, pyLookup (analyze_treatment_combined s t) "survival_rate" =
        some (PyVal.str v) ∧ v ≠ "") ∧
    (∃ v, pyLookup (analyze_treatment_combined s t) "recovery_time" =
        some (PyVal.str v) ∧ v ≠ "") := by
  cases hbeq : pyStrOf (pyGet (analyze_treatment s t) "status") == "found" with
  | true =>
    have hg : pyStrOf (pyGet (analyze_treatment s t) "status") = "found" := by
      rwa [beq_iff_eq] at hbeq
    have hcomb : analyze_treatment_combined s t =
        combined_guideline_found t (analyze_treatment s t)
          (analyze_treatment_rule_based s t) := by
      simp only [analyze_treatment_combined]
      rw [if_pos hbeq]
    obtain ⟨ct, st, hct, hst, hv, hvt, hsg, heq⟩ := analyze_status_found_eq s t hg
    obtain ⟨v, hveq, hvne⟩ := stage_survival_nonempty ct st
      (normalize_cancer_type_mem s ct hct) (normalize_stage_mem s st hst) hsg
    constructor
    · refine ⟨v, ?_, hvne⟩
      rw [hcomb, combined_gf_survival, heq, pyGet_eq_lookup, found_result_survival]
      simp only [Option.getD_some]
      rw [hveq]
    · refine ⟨"N/A", ?_, by decide⟩
      rw [hcomb, combined_gf_recovery_time, heq, pyGetD_eq_lookup, found_result_no_recovery]
      rfl
  | false =>
    cases hbeq2 : pyStrOf (pyGet (analyze_treatment s t) "status") == "incomplete" with
    | true =>
      cases hbeq3 : pyStrOf (pyGet (analyze_treatment_rule_based s t) "status") == "found" with
      | true =>
        have hr : pyStrOf (pyGet (analyze_treatment_rule_based s t) "status") = "found" := by
          rwa [beq_iff_eq] at hbeq3
        obtain ⟨key, hkey, heq⟩ := rb_status_found_eq s t hr
        constructor
        · obtain ⟨v, hveq, hvne⟩ := db_field_nonempty key "survival_rate"
            (matchTreatmentKey_cases _ _ hkey) (Or.inl rfl)
          refine ⟨v, ?_, hvne⟩
          simp only [analyze_treatment_combined]
          rw [if_neg (by simp [hbeq]), if_pos hbeq2, if_pos hbeq3]
          simp only [pyLookup]
          rw [lookupKV_pySet_ne (by decide), lookupKV_pySet_ne (by decide),
            lookupKV_pySet_ne (by decide), lookupKV_pySet_ne (by decide),
            lookupKV_pySet_ne (by decide), lookupKV_pySet_ne (by decide),
            lookupKV_pyDictOf, heq, rb_found_result_survival, hveq]
        · obtain ⟨v, hveq, hvne⟩ := db_field_nonempty key "recovery_time"
            (matchTreatmentKey_cases _ _ hkey) (Or.inr rfl)
          refine ⟨v, ?_, hvne⟩
          simp only [analyze_treatment_combined]
          rw [if_neg (by simp [hbeq]), if_pos hbeq2, if_pos hbeq3]
          simp only [pyLookup]
          rw [lookupKV_pySet_ne (by decide), lookupKV_pySet_ne (by decide),
            lookupKV_pySet_ne (by decide), lookupKV_pySet_ne (by decide),
            lookupKV_pySet_ne (by decide), lookupKV_pySet_ne (by decide),
            lookupKV_pyDictOf, heq, rb_found_result_recovery_time, hveq]
      | false =>
        exfalso
        have hcomb : analyze_treatment_combined s t = analyze_treatment s t := by
          simp only [analyze_treatment_combined]
          rw [if_neg (by simp [hbeq]), if_pos hbeq2, if_neg (by simp [hbeq3])]
        rw [hcomb] at hfound
        have hg2 : pyStrOf (pyGet (analyze_treatment s t) "status") = "incomplete" := by
          rwa [beq_iff_eq] at hbeq2
        rw [hfound] at hg2
        exact absurd hg2 (by decide)
    | false =>
      cases hbeq3 : pyStrOf (pyGet (analyze_treatment_rule_based s t) "status") == "found" with
      | true =>
        have hr : pyStrOf (pyGet (analyze_treatment_rule_based s t) "status") = "found" := by
          rwa [beq_iff_eq] at hbeq3
        obtain ⟨key, hkey, heq⟩ := rb_status_found_eq s t hr
        constructor
        · obtain ⟨v, hveq, hvne⟩ := db_field_nonempty key "survival_rate"
            (matchTreatmentKey_cases _ _ hkey) (Or.inl rfl)
          refine ⟨v, ?_, hvne⟩
          simp only [analyze_treatment_combined]
          rw [if_neg (by simp [hbeq]), if_neg (by simp [hbeq2]), if_pos hbeq3]
          simp only [pyLookup]
          rw [lookupKV_pySet_ne (by decide), lookupKV_pySet_ne (by decide),
            lookupKV_pySet_ne (by decide),
            lookupKV_pyDictOf, heq, rb_found_result_survival, hveq]
        · obtain ⟨v, hveq, hvne⟩ := db_field_nonempty key "recovery_time"
            (matchTreatmentKey_cases _ _ hkey) (Or.inr rfl)
          refine ⟨v, ?_, hvne⟩
          simp only [analyze_treatment_combined]
          rw [if_neg (by simp [hbeq]), if_neg (by simp [hbeq2]), if_pos hbeq3]
          simp only [pyLookup]
          rw [lookupKV_pySet_ne (by decide), lookupKV_pySet_ne (by decide),
            lookupKV_pySet_ne (by decide),
            lookupKV_pyDictOf, heq, rb_found_result_recovery_time, hveq]
      | false =>
        exfalso
        have hcomb : analyze_treatment_combined s t = combined_both_failed_result := by
          simp only [analyze_treatment_combined]
          rw [if_neg (by simp [hbeq]), if_neg (by simp [hbeq2]), if_neg (by simp [hbeq3])]
        rw [hcomb] at hfound
        exact absurd hfound (by decide)

/-- C7 witness: at the found input pair
("Stage I breast cancer, HER2 positive", "surgery") both metric fields
exist and are non-empty. -/
theorem C7_witness :
    pyStrOf (pyGet (analyze_treatment_combined "Stage I breast cancer, HER2 positive"
      "surgery") "status") = "found" ∧
    ((∃ v, pyLookup (analyze_treatment_combined "Stage I breast cancer, HER2 positive"
        "surgery") "survival_rate" = some (PyVal.str v) ∧ v ≠ "") ∧
     (∃ v, pyLookup (analyze_treatment_combined "Stage I breast cancer, HER2 positive"
        "surgery") "recovery_time" = some (PyVal.str v) ∧ v ≠ "")) :=
  ⟨by decide, C7_thm "Stage I breast cancer, HER2 positive" "surgery" (by decide)⟩

end Safecure
